import Mathlib

/-!
Verification of the comet flowchart/FlowLang converter core.

This file gives a shallow embedding, in Lean 4, of the core of the
`raptor_converter` package: the AST node factories (`ast/nodes.py`), the
FlowLang tokenizer and statement parser (`parsing/rapcode_parser.py`), the
precedence-climbing expression parser (`parsing/expression_parser.py`), the
FlowXML translator (`parsing/raptor_xml_parser.py`), the expression printer
(`generation/expression_utils.py`), the FlowLang generator
(`generation/rapcode_generator.py`) and the diagram walker / Mermaid
generator (`generation/base_generator.py`, `generation/mermaid_generator.py`).

Modelling conventions:
- Python dict AST nodes become the inductive `Ast`; the `"type"` field of a
  node is recovered by `Ast.typeField`.  A dict whose `type` string is not
  one of the recognised kinds is represented by `Ast.other ty`.
- Python exceptions become `Except String`; the carried string mirrors the
  exception message built by the source.
- Python `while` loops and recursion that the language does not bound are
  given an explicit fuel parameter; a result of `none` (in
  `Option (Except ..)`) means the fuel ran out, which is how this embedding
  observes nontermination of the source.
- Python `float` values are abstracted by their lexical form (no claim in
  this development computes with floating point).
- All character/string scanning is done on `List Char` via `String.data`,
  mirroring Python string primitives (`strip`, `startswith`, `split`,
  `str.replace`, the tokenizer regex) character by character.
-/

namespace Comet

set_option maxRecDepth 16000

/-! ## Python string primitives -/

/-- Characters matched by Python's regex class `\s` (ASCII range). -/
def pyIsSpace (c : Char) : Bool :=
  c = ' ' || c = '\t' || c = '\n' || c = '\r' || c = '\x0b' || c = '\x0c'

/-- Python `str.strip()` on the character list. -/
def pyStripData (l : List Char) : List Char :=
  ((l.dropWhile pyIsSpace).reverse.dropWhile pyIsSpace).reverse

/-- Python `str.strip()`. -/
def pyStrip (s : String) : String := ⟨pyStripData s.data⟩

/-- Python `s.startswith(c)` for a single-character argument. -/
def pyStartsWith (s : String) (c : Char) : Bool := s.data.head? = some c

/-- Python `s.endswith(c)` for a single-character argument. -/
def pyEndsWith (s : String) (c : Char) : Bool := s.data.getLast? = some c

/-- Python `s[1:-1]`. -/
def pyDropEnds (s : String) : String := ⟨(s.data.drop 1).dropLast⟩

/-- Python `str.lower()` (ASCII). -/
def pyLower (s : String) : String := ⟨s.data.map Char.toLower⟩

/-- Python `str.replace(pat, repl)` on character lists (all occurrences,
left to right); an empty pattern is never used by the source and is a
no-op here. -/
def replaceSub (p r : List Char) : List Char → List Char
  | [] => []
  | c :: rest =>
    match p with
    | [] => c :: rest
    | q :: qs =>
      if (q :: qs).isPrefixOf (c :: rest) then
        r ++ replaceSub p r ((c :: rest).drop (q :: qs).length)
      else
        c :: replaceSub p r rest
termination_by l => l.length
decreasing_by
  · simp [List.length_drop]; omega
  · simp

/-- Python `str.replace` on strings. -/
def pyReplace (s pat repl : String) : String :=
  ⟨replaceSub pat.data repl.data s.data⟩

/-- Whether `p` occurs as a contiguous sublist of `l` (Python `p in s`). -/
def containsSub (p : List Char) : List Char → Bool
  | [] => p.isPrefixOf []
  | c :: rest => p.isPrefixOf (c :: rest) || containsSub p rest

/-- Python `s.split(p, 1)`: split at the first occurrence of `p`, returning
the parts before and after, or `none` when `p` does not occur. -/
def splitOnce (p : List Char) : List Char → Option (List Char × List Char)
  | [] => none
  | c :: rest =>
    if p.isPrefixOf (c :: rest) then some ([], (c :: rest).drop p.length)
    else (splitOnce p rest).map (fun pr => (c :: pr.1, pr.2))

/-! ## Data model: AST nodes (`raptor_converter/ast/nodes.py`)

Python represents AST nodes as dicts with a `"type"` tag; the factory
functions in `nodes.py` are the only constructors.  `Value` models the
Python values stored in a `Literal` node. -/

inductive Value where
  | int (n : Int)
  | float (lexeme : String)
  | bool (b : Bool)
  | str (s : String)

inductive Ast where
  | program (body : List Ast)
  | block (body : List Ast)
  | literal (value : Value)
  | identifier (name : String)
  | binaryExpression (operator : String) (left right : Ast)
  | unaryExpression (operator : String) (argument : Ast)
  | callExpression (callee : String) (arguments : List Ast)
  | assignmentStatement (left right : Ast)
  | expressionStatement (expression : Ast)
  | ifStatement (test : Ast) (consequent : Ast) (alternate : Option Ast)
  | whileStatement (test : Ast) (body : Ast)
  | breakStatement
  | other (typeStr : String)

/-- The `"type"` field that the node factories store in each dict. -/
def Ast.typeField : Ast → String
  | .program _ => "Program"
  | .block _ => "BlockStatement"
  | .literal _ => "Literal"
  | .identifier _ => "Identifier"
  | .binaryExpression .. => "BinaryExpression"
  | .unaryExpression .. => "UnaryExpression"
  | .callExpression .. => "CallExpression"
  | .assignmentStatement .. => "AssignmentStatement"
  | .expressionStatement _ => "ExpressionStatement"
  | .ifStatement .. => "IfStatement"
  | .whileStatement .. => "WhileStatement"
  | .breakStatement => "BreakStatement"
  | .other ty => ty

def create_program (body : List Ast) : Ast := .program body

def create_block (body : List Ast) : Ast := .block body

/-- The factory `create_literal`: a string value that starts and ends with a
double quote is stored with that quote pair stripped. -/
def create_literal (value : Value) : Ast :=
  match value with
  | .str s =>
    if pyStartsWith s '"' && pyEndsWith s '"' then .literal (.str (pyDropEnds s))
    else .literal (.str s)
  | v => .literal v

def create_identifier (name : String) : Ast := .identifier name

def create_binary_expression (operator : String) (left right : Ast) : Ast :=
  .binaryExpression operator left right

def create_unary_expression (operator : String) (argument : Ast) : Ast :=
  .unaryExpression operator argument

def create_call_expression (callee : String) (arguments : List Ast) : Ast :=
  .callExpression callee arguments

def create_input_expression (promptNode : Ast) : Ast :=
  .callExpression "Input" [promptNode]

def create_output_statement (argumentNode : Ast) : Ast :=
  .expressionStatement (create_call_expression "Output" [argumentNode])

def create_assignment_statement (left right : Ast) : Ast :=
  .assignmentStatement left right

def create_if_statement (test : Ast) (consequentBody : List Ast)
    (alternateBody : Option (List Ast)) : Ast :=
  .ifStatement test (create_block consequentBody) (alternateBody.map create_block)

def create_while_statement (test : Ast) (body : List Ast) : Ast :=
  .whileStatement test (create_block body)

def create_break_statement : Ast := .breakStatement

/-! ## Tokenizer (`RapcodeParser._tokenize` and `TOKEN_REGEX`)

The regex alternation is tried in order at each position: whitespace (one
`<NEWLINE>` marker emitted per newline character), `--` comments,
identifiers/keywords, multi-character operators, numbers, strings with
backslash escapes, then any single character. -/

def NEWLINE : String := "<NEWLINE>"

def RESERVED_KEYWORDS : List String :=
  ["IF", "THEN", "ELSE", "ENDIF", "WHILE", "DO", "LOOP", "ENDLOOP",
   "BREAK", "INPUT", "OUTPUT", "TRUE", "FALSE", "NOT", "AND", "OR", "MOD"]

def isIdentStart (c : Char) : Bool := c.isAlpha || c = '_'

def isIdentChar (c : Char) : Bool := c.isAlphanum || c = '_'

/-- The multi-character operator alternation, in the regex's order. -/
def opList : List (List Char) :=
  [[':', '='], ['=', '='], ['!', '='], ['<', '='], ['>', '='],
   ['<'], ['>'], ['+'], ['-'], ['*'], ['/'], ['^']]

def matchOpFrom : List (List Char) → List Char → Option (List Char × List Char)
  | [], _ => none
  | p :: ps, l =>
    if p.isPrefixOf l then some (p, l.drop p.length) else matchOpFrom ps l

def matchOp (l : List Char) : Option (List Char × List Char) := matchOpFrom opList l

/-- The string-literal body `(?:\\.|[^"\\])*"` after an opening quote.
Returns the body (escapes kept verbatim) and the rest after the closing
quote, or `none` when the regex cannot match (unterminated literal, or a
backslash followed by a newline or end of input, since `.` does not match
a newline). -/
def scanString : List Char → Option (List Char × List Char)
  | [] => none
  | '"' :: rest => some ([], rest)
  | '\\' :: d :: rest =>
    if d = '\n' then none
    else (scanString rest).map (fun pr => ('\\' :: d :: pr.1, pr.2))
  | ['\\'] => none
  | c :: rest => (scanString rest).map (fun pr => (c :: pr.1, pr.2))

/-- One pass of the token scan.  Every step consumes at least one input
character, so fuel `length + 1` (supplied by `tokenize`) never runs out. -/
def tokenizeGo : Nat → List Char → List String
  | 0, _ => []
  | _, [] => []
  | n + 1, c :: rest =>
    if pyIsSpace c then
      let run := (c :: rest).takeWhile pyIsSpace
      List.replicate (run.count '\n') NEWLINE
        ++ tokenizeGo n ((c :: rest).dropWhile pyIsSpace)
    else if c = '-' && rest.head? = some '-' then
      tokenizeGo n ((c :: rest).dropWhile (fun ch => ch ≠ '\n'))
    else if isIdentStart c then
      String.mk (c :: rest.takeWhile isIdentChar)
        :: tokenizeGo n (rest.dropWhile isIdentChar)
    else
      match matchOp (c :: rest) with
      | some (op, rem) => String.mk op :: tokenizeGo n rem
      | none =>
        if c.isDigit then
          let ds := c :: rest.takeWhile Char.isDigit
          let rem := rest.dropWhile Char.isDigit
          match rem with
          | '.' :: r2 =>
            String.mk (ds ++ '.' :: r2.takeWhile Char.isDigit)
              :: tokenizeGo n (r2.dropWhile Char.isDigit)
          | _ => String.mk ds :: tokenizeGo n rem
        else if c = '"' then
          match scanString rest with
          | some (body, rem) =>
            String.mk ('"' :: body ++ ['"']) :: tokenizeGo n rem
          | none => String.mk [c] :: tokenizeGo n rest
        else
          String.mk [c] :: tokenizeGo n rest

/-- The tokenizer `RapcodeParser._tokenize`. -/
def tokenize (code : String) : List String :=
  tokenizeGo (code.data.length + 1) code.data

/-! ## Expression parser (`parsing/expression_parser.py`)

A precedence-climbing parser over a token slice.  The parser state is the
token list plus a position; Python's unbounded `while` loops and recursion
carry a fuel parameter here (`epFuel` is always sufficient for the
concrete inputs used below; universally quantified statements about the
parser take the parse result as a hypothesis). -/

def epFuelMsg : String := "expression parser fuel exhausted (model artifact)"

def epPeek (toks : List String) (pos : Nat) : Option String := toks.get? pos

def optTokenStr : Option String → String
  | some t => t
  | none => "None"

/-- The `_consume(expected)` helper's failure message comes from here. -/
def epExpect (toks : List String) (pos : Nat) (expected : String) :
    Except String Nat :=
  if epPeek toks pos = some expected then .ok (pos + 1)
  else
    .error ("Expected '" ++ expected ++ "' but found '"
      ++ optTokenStr (epPeek toks pos) ++ "' at position " ++ toString pos)

/-- Full match of the number regex `\d+(\.\d*)?`. -/
def isNumberToken (t : String) : Bool :=
  let ds := t.data.takeWhile Char.isDigit
  let rest := t.data.dropWhile Char.isDigit
  ds ≠ [] &&
    (rest = [] || (rest.head? = some '.' && rest.tail.all Char.isDigit))

/-- Full match of the identifier regex `[A-Za-z_][A-Za-z0-9_]*`. -/
def isIdentifierToken (t : String) : Bool :=
  match t.data with
  | [] => false
  | c :: cs => isIdentStart c && cs.all isIdentChar

def digitsToNat (l : List Char) : Nat :=
  l.foldl (fun a c => a * 10 + (c.toNat - '0'.toNat)) 0

/-- Python `int(token)` falling back to `float(token)` when the token
contains a dot. -/
def numberValue (t : String) : Value :=
  if '.' ∈ t.data then .float t else .int (digitsToNat t.data)

mutual

def parse_logical_or : Nat → List String → Nat → Except String (Ast × Nat)
  | 0, _, _ => .error epFuelMsg
  | f + 1, toks, pos => do
    let (n, p) ← parse_logical_and f toks pos
    epOrLoop f toks n p

termination_by structural fuel _ _ => fuel
def epOrLoop : Nat → List String → Ast → Nat → Except String (Ast × Nat)
  | 0, _, _, _ => .error epFuelMsg
  | f + 1, toks, node, pos =>
    if epPeek toks pos = some "OR" then do
      let (r, p) ← parse_logical_and f toks (pos + 1)
      epOrLoop f toks (create_binary_expression "OR" node r) p
    else .ok (node, pos)

termination_by structural fuel _ _ => fuel
def parse_logical_and : Nat → List String → Nat → Except String (Ast × Nat)
  | 0, _, _ => .error epFuelMsg
  | f + 1, toks, pos => do
    let (n, p) ← parse_comparison f toks pos
    epAndLoop f toks n p

termination_by structural fuel _ _ => fuel
def epAndLoop : Nat → List String → Ast → Nat → Except String (Ast × Nat)
  | 0, _, _, _ => .error epFuelMsg
  | f + 1, toks, node, pos =>
    if epPeek toks pos = some "AND" then do
      let (r, p) ← parse_comparison f toks (pos + 1)
      epAndLoop f toks (create_binary_expression "AND" node r) p
    else .ok (node, pos)

termination_by structural fuel _ _ => fuel
def parse_comparison : Nat → List String → Nat → Except String (Ast × Nat)
  | 0, _, _ => .error epFuelMsg
  | f + 1, toks, pos => do
    let (n, p) ← parse_additive f toks pos
    match epPeek toks p with
    | some op =>
      if op ∈ (["==", "!=", "<", ">", "<=", ">="] : List String) then do
        let (r, p2) ← parse_additive f toks (p + 1)
        .ok (create_binary_expression op n r, p2)
      else .ok (n, p)
    | none => .ok (n, p)

termination_by structural fuel _ _ => fuel
def parse_additive : Nat → List String → Nat → Except String (Ast × Nat)
  | 0, _, _ => .error epFuelMsg
  | f + 1, toks, pos => do
    let (n, p) ← parse_multiplicative f toks pos
    epAddLoop f toks n p

termination_by structural fuel _ _ => fuel
def epAddLoop : Nat → List String → Ast → Nat → Except String (Ast × Nat)
  | 0, _, _, _ => .error epFuelMsg
  | f + 1, toks, node, pos =>
    match epPeek toks pos with
    | some op =>
      if op = "+" || op = "-" then do
        let (r, p) ← parse_multiplicative f toks (pos + 1)
        epAddLoop f toks (create_binary_expression op node r) p
      else .ok (node, pos)
    | none => .ok (node, pos)

termination_by structural fuel _ _ => fuel
def parse_multiplicative : Nat → List String → Nat → Except String (Ast × Nat)
  | 0, _, _ => .error epFuelMsg
  | f + 1, toks, pos => do
    let (n, p) ← parse_unary f toks pos
    epMulLoop f toks n p

termination_by structural fuel _ _ => fuel
def epMulLoop : Nat → List String → Ast → Nat → Except String (Ast × Nat)
  | 0, _, _, _ => .error epFuelMsg
  | f + 1, toks, node, pos =>
    match epPeek toks pos with
    | some op =>
      if op = "*" || op = "/" || op = "MOD" then do
        let (r, p) ← parse_unary f toks (pos + 1)
        epMulLoop f toks (create_binary_expression op node r) p
      else .ok (node, pos)
    | none => .ok (node, pos)

termination_by structural fuel _ _ => fuel
def parse_unary : Nat → List String → Nat → Except String (Ast × Nat)
  | 0, _, _ => .error epFuelMsg
  | f + 1, toks, pos =>
    match epPeek toks pos with
    | some t =>
      if t = "NOT" || t = "-" then do
        let (a, p) ← parse_unary f toks (pos + 1)
        .ok (create_unary_expression t a, p)
      else parse_atom f toks pos
    | none => parse_atom f toks pos

termination_by structural fuel _ _ => fuel
def parse_atom : Nat → List String → Nat → Except String (Ast × Nat)
  | 0, _, _ => .error epFuelMsg
  | f + 1, toks, pos =>
    match epPeek toks pos with
    | none => .error "Unexpected end of expression."
    | some t =>
      if t = "(" then do
        let (n, p) ← parse_logical_or f toks (pos + 1)
        let p2 ← epExpect toks p ")"
        .ok (n, p2)
      else if t = "INPUT" then do
        let p1 ← epExpect toks (pos + 1) "("
        let (prompt, p2) ← parse_logical_or f toks p1
        let p3 ← epExpect toks p2 ")"
        .ok (create_input_expression prompt, p3)
      else if t = "TRUE" then .ok (create_literal (.bool true), pos + 1)
      else if t = "FALSE" then .ok (create_literal (.bool false), pos + 1)
      else if pyStartsWith t '"' then .ok (create_literal (.str t), pos + 1)
      else if isNumberToken t then .ok (create_literal (numberValue t), pos + 1)
      else if isIdentifierToken t then .ok (create_identifier t, pos + 1)
      else .error ("Unexpected token in expression: '" ++ t ++ "'")

termination_by structural fuel _ _ => fuel
end

def epFuel (toks : List String) : Nat := 8 * toks.length + 16

/-- The public entry point `ExpressionParser.parse`: `none` on an empty
token slice; on leftover tokens after a complete parse it fails with the
unexpected-token message. -/
def expressionParserParse (toks : List String) : Except String (Option Ast) :=
  match toks with
  | [] => .ok none
  | _ => do
    let (a, p) ← parse_logical_or (epFuel toks) toks 0
    match epPeek toks p with
    | some t => .error ("Unexpected token: '" ++ t ++ "'")
    | none => .ok (some a)

/-! ## Expression printer (`generation/expression_utils.py`) -/

def joinSep (sep : String) : List String → String
  | [] => ""
  | [s] => s
  | s :: rest => s ++ sep ++ joinSep sep rest

/-- Printing of a `Literal` payload: strings are re-quoted, booleans print
as `TRUE`/`FALSE`, integers in decimal; a float prints as its lexical form
(the embedding's abstraction of Python `str(float)`). -/
def literalString : Value → String
  | .str s => "\"" ++ s ++ "\""
  | .bool b => if b then "TRUE" else "FALSE"
  | .int n => toString n
  | .float lexeme => lexeme

mutual

def expression_to_string : Ast → Except String String
  | .literal v => .ok (literalString v)
  | .identifier name => .ok name
  | .binaryExpression op l r => do
    let ls ← expression_to_string l
    let rs ← expression_to_string r
    .ok ("(" ++ ls ++ " " ++ op ++ " " ++ rs ++ ")")
  | .unaryExpression op a => do
    let s ← expression_to_string a
    if op = "NOT" then .ok ("NOT " ++ s) else .ok ("(" ++ op ++ s ++ ")")
  | .callExpression callee args => do
    let ss ← exprListStrings args
    if callee = "Input" then
      .ok ("INPUT(" ++ (match ss with | s :: _ => s | [] => "") ++ ")")
    else .ok (callee ++ "(" ++ joinSep ", " ss ++ ")")
  | n => .error ("Unknown expression node type: " ++ n.typeField)

def exprListStrings : List Ast → Except String (List String)
  | [] => .ok []
  | a :: rest => do
    let s ← expression_to_string a
    let ss ← exprListStrings rest
    .ok (s :: ss)

end

/-- The visualizer's `_expr_to_str`, which turns a printer error into the
placeholder label `expr`. -/
def exprToStr (node : Ast) : String :=
  match expression_to_string node with
  | .ok s => s
  | .error _ => "expr"

/-! ## Statement parser (`parsing/rapcode_parser.py`)

State is the token list plus a position.  Results are
`Option (Except String _)`: `none` means the fuel ran out, which is how the
embedding observes that the corresponding Python loop does not terminate
(each fueled function passes the predecessor of its fuel to every fueled
call it makes). -/

def spSkipNewlines (toks : List String) (pos : Nat) : Nat :=
  if h : epPeek toks pos = some NEWLINE then spSkipNewlines toks (pos + 1)
  else pos
termination_by toks.length - pos
decreasing_by
  have hlt : pos < toks.length := by
    by_contra hge
    have : epPeek toks pos = none := by
      simp [epPeek, List.get?_eq_none]; omega
    simp [this] at h
  omega

/-- The `_is_expression_start` test, on the peeked token. -/
def is_expression_start : Option String → Bool
  | none => false
  | some t =>
    if t ∈ (["(", "NOT", "-", "INPUT", "TRUE", "FALSE"] : List String) then true
    else if pyStartsWith t '"' then true
    else
      match t.data with
      | [] => false
      | c :: _ =>
        if c.isDigit then true
        else c.isAlpha && decide (t ∉ RESERVED_KEYWORDS)

/-- The token-collecting loop of `RapcodeParser._parse_expression`: advance
until, at parenthesis depth 0, a newline marker, `:=`, `THEN`, `DO`,
`ENDLOOP` or a statement-starting keyword appears; a `)` that takes the
depth negative is collected and then stops the scan. -/
def spCollectLoop (toks : List String) (pos : Nat) (depth : Int)
    (acc : List String) : List String × Nat :=
  match h : epPeek toks pos with
  | none => (acc.reverse, pos)
  | some token =>
    if (token = NEWLINE || token = ":="
        || token = "THEN" || token = "DO" || token = "ENDLOOP"
        || token = "IF" || token = "LOOP" || token = "WHILE"
        || token = "BREAK" || token = "OUTPUT") && depth = 0 then
      (acc.reverse, pos)
    else
      let acc2 := token :: acc
      if token = "(" then spCollectLoop toks (pos + 1) (depth + 1) acc2
      else if token = ")" then
        if depth - 1 < 0 then (acc2.reverse, pos + 1)
        else spCollectLoop toks (pos + 1) (depth - 1) acc2
      else spCollectLoop toks (pos + 1) depth acc2
termination_by toks.length - pos
decreasing_by
  all_goals
    have hlt : pos < toks.length := by
      by_contra hge
      have : epPeek toks pos = none := by
        simp [epPeek, List.get?_eq_none]; omega
      simp [this] at h
    omega

/-- The slice-then-parse body of `RapcodeParser._parse_expression`. -/
def spParseExpression (toks : List String) (pos : Nat) :
    Except String (Ast × Nat) :=
  let (ets, p) := spCollectLoop toks pos 0 []
  if ets = [] then .error "Expected expression."
  else
    match expressionParserParse ets with
    | .error e => .error e
    | .ok (some a) => .ok (a, p)
    | .ok none => .error "unreachable: a nonempty slice never parses to None"

/-- The `_parse_output` method (no loops, so no fuel). -/
def parse_output (toks : List String) (pos : Nat) : Except String (Ast × Nat) :=
  match spParseExpression toks (pos + 1) with
  | .error e => .error e
  | .ok (arg, p) => .ok (create_output_statement arg, p)

def spMapSome (r : Option (Except String (Ast × Nat))) :
    Option (Except String (Option Ast × Nat)) :=
  match r with
  | none => none
  | some (.error e) => some (.error e)
  | some (.ok (a, p)) => some (.ok (some a, p))

mutual

def parse_statement : Nat → List String → Nat →
    Option (Except String (Option Ast × Nat))
  | 0, _, _ => none
  | f + 1, toks, pos =>
    let p := spSkipNewlines toks pos
    match epPeek toks p with
    | none => some (.ok (none, p))
    | some token =>
      if token = "ELSE" || token = "ENDIF" || token = "ENDLOOP" then
        some (.ok (none, p))
      else if token = "IF" then spMapSome (parse_if f toks p)
      else if token = "LOOP" || token = "WHILE" then
        spMapSome (parse_loop f toks p)
      else if token = "BREAK" then
        some (.ok (some create_break_statement, p + 1))
      else if token = "OUTPUT" then
        match parse_output toks p with
        | .error e => some (.error e)
        | .ok (st, p2) => some (.ok (some st, p2))
      else if ¬ is_expression_start (some token) then
        some (.error ("Unexpected token: '" ++ token
          ++ "'. Expected start of statement."))
      else
        match spParseExpression toks p with
        | .error e => some (.error e)
        | .ok (exprAst, p1) =>
          if epPeek toks p1 = some ":=" then
            match spParseExpression toks (p1 + 1) with
            | .error e => some (.error e)
            | .ok (rightAst, p2) =>
              if exprAst.typeField ≠ "Identifier" then
                some (.error "Invalid left-hand side in assignment.")
              else
                some (.ok (some (create_assignment_statement exprAst rightAst), p2))
          else
            some (.error ("Invalid statement. Did you mean 'OUTPUT " ++ token
              ++ "...' or an assignment?"))

termination_by structural fuel _ _ => fuel
def parse_if : Nat → List String → Nat → Option (Except String (Ast × Nat))
  | 0, _, _ => none
  | f + 1, toks, pos =>
    match spParseExpression toks (pos + 1) with
    | .error e => some (.error e)
    | .ok (test, p1) =>
      match epExpect toks p1 "THEN" with
      | .error e => some (.error e)
      | .ok p2 =>
        match spIfBody f toks p2 [] with
        | none => none
        | some (.error e) => some (.error e)
        | some (.ok (conseq, p3)) =>
          if epPeek toks p3 = some "ELSE" then
            match spElseBody f toks (p3 + 1) [] with
            | none => none
            | some (.error e) => some (.error e)
            | some (.ok (alt, p4)) =>
              match epExpect toks p4 "ENDIF" with
              | .error e => some (.error e)
              | .ok p5 => some (.ok (create_if_statement test conseq (some alt), p5))
          else
            match epExpect toks p3 "ENDIF" with
            | .error e => some (.error e)
            | .ok p5 => some (.ok (create_if_statement test conseq none, p5))

termination_by structural fuel _ _ => fuel
def spIfBody : Nat → List String → Nat → List Ast →
    Option (Except String (List Ast × Nat))
  | 0, _, _, _ => none
  | f + 1, toks, pos, acc =>
    let p := spSkipNewlines toks pos
    match epPeek toks p with
    | none => some (.ok (acc.reverse, p))
    | some u =>
      if u = "ELSE" || u = "ENDIF" then some (.ok (acc.reverse, p))
      else
        match parse_statement f toks p with
        | none => none
        | some (.error e) => some (.error e)
        | some (.ok (stmtOpt, p2)) =>
          match stmtOpt with
          | some st => spIfBody f toks p2 (st :: acc)
          | none => spIfBody f toks p2 acc

termination_by structural fuel _ _ => fuel
def spElseBody : Nat → List String → Nat → List Ast →
    Option (Except String (List Ast × Nat))
  | 0, _, _, _ => none
  | f + 1, toks, pos, acc =>
    let p := spSkipNewlines toks pos
    if epPeek toks p = some "ENDIF" then some (.ok (acc.reverse, p))
    else
      match parse_statement f toks p with
      | none => none
      | some (.error e) => some (.error e)
      | some (.ok (stmtOpt, p2)) =>
        match stmtOpt with
        | some st => spElseBody f toks p2 (st :: acc)
        | none => spElseBody f toks p2 acc

termination_by structural fuel _ _ => fuel
def parse_loop : Nat → List String → Nat → Option (Except String (Ast × Nat))
  | 0, _, _ => none
  | f + 1, toks, pos =>
    let start : Except String (Ast × Nat) :=
      if epPeek toks pos = some "LOOP" then
        .ok (create_literal (.bool true), pos + 1)
      else if epPeek toks pos = some "WHILE" then
        match spParseExpression toks (pos + 1) with
        | .error e => .error e
        | .ok (test, p1) =>
          match epExpect toks p1 "DO" with
          | .error e => .error e
          | .ok p2 => .ok (test, p2)
      else .error "Expected 'LOOP' or 'WHILE'."
    match start with
    | .error e => some (.error e)
    | .ok (test, p2) =>
      match spLoopBody f toks p2 [] with
      | none => none
      | some (.error e) => some (.error e)
      | some (.ok (body, p3)) =>
        match epExpect toks p3 "ENDLOOP" with
        | .error e => some (.error e)
        | .ok p4 => some (.ok (create_while_statement test body, p4))

termination_by structural fuel _ _ => fuel
def spLoopBody : Nat → List String → Nat → List Ast →
    Option (Except String (List Ast × Nat))
  | 0, _, _, _ => none
  | f + 1, toks, pos, acc =>
    let p := spSkipNewlines toks pos
    if epPeek toks p = some "ENDLOOP" then some (.ok (acc.reverse, p))
    else
      match parse_statement f toks p with
      | none => none
      | some (.error e) => some (.error e)
      | some (.ok (stmtOpt, p2)) =>
        match stmtOpt with
        | some st => spLoopBody f toks p2 (st :: acc)
        | none => spLoopBody f toks p2 acc

termination_by structural fuel _ _ => fuel
def spProgramLoop : Nat → List String → Nat → List Ast →
    Option (Except String (List Ast × Nat))
  | 0, _, _, _ => none
  | f + 1, toks, pos, acc =>
    match epPeek toks pos with
    | none => some (.ok (acc.reverse, pos))
    | some _ =>
      match parse_statement f toks pos with
      | none => none
      | some (.error e) => some (.error e)
      | some (.ok (stmtOpt, p1)) =>
        let p2 := spSkipNewlines toks p1
        match stmtOpt with
        | some st => spProgramLoop f toks p2 (st :: acc)
        | none => spProgramLoop f toks p2 acc

termination_by structural fuel _ _ => fuel
end

/-- The entry point `RapcodeParser.parse`: tokenize, skip leading newlines,
then run the statement loop; the result is a `Program` node.  A result of
`none` means the parse did not terminate within `fuel` steps. -/
def rapcodeParse (fuel : Nat) (content : String) : Option (Except String Ast) :=
  let toks := tokenize content
  let p0 := spSkipNewlines toks 0
  match spProgramLoop fuel toks p0 [] with
  | none => none
  | some (.error e) => some (.error e)
  | some (.ok (stmts, _)) => some (.ok (create_program stmts))

/-! ## FlowLang generator (`generation/rapcode_generator.py`)

`_generate_nodes` builds a list of lines and joins them with newlines; the
recursive calls re-split the joined result (`.splitlines()`).  Joining and
re-splitting is the identity on the final output (no generated line is
empty and carriage returns do not occur in the claims' inputs), so the
embedding passes the line lists through directly. -/

def indentStr (level : Nat) : String := String.mk (List.replicate (2 * level) ' ')

def rapIfAssemble (t : String) (conseqLines : List String) (altNonempty : Bool)
    (altLines : List String) (level : Nat) : List String :=
  [indentStr level ++ "IF " ++ t ++ " THEN"] ++ conseqLines
    ++ (if altNonempty then (indentStr level ++ "ELSE") :: altLines else [])
    ++ [indentStr level ++ "ENDIF"]

mutual

def rapGenLines : List Ast → Nat → Except String (List String)
  | [], _ => .ok []
  | node :: rest, level => do
    let first ← rapGenStmt node level
    let restL ← rapGenLines rest level
    .ok (first ++ restL)

/-- One iteration of the `for node in ast_nodes` dispatch.  A node kind
with no matching branch contributes no lines.  A consequent/alternate/body
that is not a Block dict reads `.get("body", [])` as the empty list. -/
def rapGenStmt : Ast → Nat → Except String (List String)
  | .assignmentStatement l r, level => do
    let ls ← expression_to_string l
    let rs ← expression_to_string r
    .ok [indentStr level ++ ls ++ " := " ++ rs]
  | .expressionStatement e, level =>
    match e with
    | .callExpression "Output" (arg :: _) => do
      let s ← expression_to_string arg
      .ok [indentStr level ++ "OUTPUT " ++ s]
    | .callExpression "Output" [] => .error "list index out of range"
    | _ => .ok []
  | .ifStatement test (.block conseqL) (some (.block altL)), level => do
    let t ← expression_to_string test
    let cl ← rapGenLines conseqL (level + 1)
    let al ← rapGenLines altL (level + 1)
    .ok (rapIfAssemble t cl (!altL.isEmpty) al level)
  | .ifStatement test (.block conseqL) _, level => do
    let t ← expression_to_string test
    let cl ← rapGenLines conseqL (level + 1)
    .ok (rapIfAssemble t cl false [] level)
  | .ifStatement test _ (some (.block altL)), level => do
    let t ← expression_to_string test
    let al ← rapGenLines altL (level + 1)
    .ok (rapIfAssemble t [] (!altL.isEmpty) al level)
  | .ifStatement test _ _, level => do
    let t ← expression_to_string test
    .ok (rapIfAssemble t [] false [] level)
  | .whileStatement (.literal (.bool true)) (.block bodyL), level => do
    let bl ← rapGenLines bodyL (level + 1)
    .ok ((indentStr level ++ "LOOP") :: bl ++ [indentStr level ++ "ENDLOOP"])
  | .whileStatement test (.block bodyL), level => do
    let ts ← expression_to_string test
    let bl ← rapGenLines bodyL (level + 1)
    .ok ((indentStr level ++ "WHILE " ++ ts ++ " DO") :: bl
      ++ [indentStr level ++ "ENDLOOP"])
  | .whileStatement (.literal (.bool true)) _, level =>
    .ok [indentStr level ++ "LOOP", indentStr level ++ "ENDLOOP"]
  | .whileStatement test _, level => do
    let ts ← expression_to_string test
    .ok [indentStr level ++ "WHILE " ++ ts ++ " DO", indentStr level ++ "ENDLOOP"]
  | .breakStatement, level => .ok [indentStr level ++ "BREAK"]
  | _, _ => .ok []

end

/-- The entry point `RapcodeGenerator.generate`; any exception is wrapped
into a `GenerationError`. -/
def rapcodeGenerate (ast : Ast) : Except String String :=
  let body := match ast with | .program l => l | .block l => l | _ => []
  match rapGenLines body 0 with
  | .ok lines => .ok (joinSep "\n" lines)
  | .error e => .error ("Rapcode generation failed: " ++ e)

/-! ## FlowXML translator (`parsing/raptor_xml_parser.py`)

An `RNode` models one flowchart component as the translator observes it
through its XML helpers: its resolved type name, the text of its
`_text_str`, `_prompt` and `_is_input` payload fields (defaults `''`,
`''`, `'false'` when absent), and its `_left_Child`, `_right_Child`,
`_before_Child`, `_after_Child` and `_Successor` links after
`_find_actual_component` (absent or nil links become `none`). -/

inductive RNode where
  | mk (nodeType : String) (textStr promptStr isInputStr : String)
       (left rightc before after succ : Option RNode)

/-- The `=` → `==` rewrite `re.sub(r'(?<![:!<>=])=(?!=)', '==', s)`,
scanning with one character of look-behind over the original string. -/
def eqSubstData : Option Char → List Char → List Char
  | _, [] => []
  | prev, c :: rest =>
    if c = '=' then
      let prevBlocks : Bool :=
        match prev with
        | some p => p = ':' || p = '!' || p = '<' || p = '>' || p = '='
        | none => false
      if prevBlocks || rest.head? = some '=' then
        '=' :: eqSubstData (some '=') rest
      else
        '=' :: '=' :: eqSubstData (some '=') rest
    else c :: eqSubstData (some c) rest

/-- The expression preprocessing of `RaptorXMLParser._parse_expression`. -/
def raptorPreprocess (s : String) : String :=
  let s1 := pyReplace s " mod " " MOD "
  let s2 := pyReplace s1 " and " " AND "
  let s3 := pyReplace s2 " or " " OR "
  let s4 := pyReplace s3 " not " " NOT "
  let s5 : String := ⟨eqSubstData none s4.data⟩
  pyReplace s5 "<>" "!="

/-- The `RaptorXMLParser._parse_expression` wrapper: preprocess, tokenize
with the rapcode tokenizer, parse with the expression parser, wrapping any
failure. -/
def raptorParseExpression (s : String) : Except String (Option Ast) :=
  if s = "" then .error "Empty expression string found in XML."
  else
    let pre := raptorPreprocess s
    match expressionParserParse (tokenize pre) with
    | .error e => .error ("Failed to parse expression '" ++ pre ++ "': " ++ e)
    | .ok r => .ok r

/-- A parse that yielded no expression (empty token slice) would store a
Python `None` inside an AST dict; that dict has no counterpart in `Ast`,
so the embedding stops with an error there.  No claim depends on it. -/
def requireSomeExpr (r : Except String (Option Ast)) : Except String Ast :=
  match r with
  | .error e => .error e
  | .ok (some a) => .ok a
  | .ok none => .error "unrepresentable: expression parsed to None"

/-- The recursive translator `RaptorXMLParser._parse_raptor_node`.  Errors
raised while translating a component are wrapped with the component's type
name; the successor chain is translated outside that wrapper. -/
def parse_raptor_node : Option RNode → Except String (List Ast)
  | none => .ok []
  | some (.mk ty text prompt isInput left rightc before after succ) =>
    let current : Except String (Option Ast) :=
      if ty = "Rectangle" then
        if containsSub [':', '='] text.data then
          match splitOnce [':', '='] text.data with
          | some (lstr, rstr) => do
            let leftN ← requireSomeExpr
              (raptorParseExpression (pyStrip (String.mk lstr)))
            let rightN ← requireSomeExpr
              (raptorParseExpression (pyStrip (String.mk rstr)))
            .ok (some (create_assignment_statement leftN rightN))
          | none => .ok none
        else .ok none
      else if ty = "Parallelogram" then
        let textS := pyStrip text
        if pyLower isInput = "true" then
          let p0 := pyStrip prompt
          let p1 :=
            if pyStartsWith p0 '"' && pyEndsWith p0 '"' then pyDropEnds p0
            else p0
          .ok (some (create_assignment_statement (create_identifier textS)
            (create_input_expression (create_literal (.str p1)))))
        else do
          let arg ← requireSomeExpr (raptorParseExpression textS)
          .ok (some (create_output_statement arg))
      else if ty = "IF_Control" then do
        let conseq ← parse_raptor_node left
        let altL ← parse_raptor_node rightc
        let t ← requireSomeExpr (raptorParseExpression text)
        .ok (some (create_if_statement t conseq
          (if altL.isEmpty then none else some altL)))
      else if ty = "Loop" then do
        let beforeB ← parse_raptor_node before
        let afterB ← parse_raptor_node after
        let e ← requireSomeExpr (raptorParseExpression text)
        let ifBreak := create_if_statement e [create_break_statement] none
        .ok (some (create_while_statement (create_literal (.bool true))
          (beforeB ++ [ifBreak] ++ afterB)))
      else .ok none
    match current with
    | .error e =>
      .error ("Error parsing XML node of type '" ++ ty ++ "': " ++ e)
    | .ok cur => do
      let succL ← parse_raptor_node succ
      .ok ((match cur with | some n => [n] | none => []) ++ succL)

/-! ## Diagram walker and Mermaid generator
(`generation/base_generator.py`, `generation/mermaid_generator.py`)

`MState` is the generator instance's mutable state: the node counter and
loop-exit stack initialised by `__init__`, and the node/edge buffers that
`MermaidGenerator.generate` resets at the start of each call.  The stack's
top is its last element, as in the Python list.  The walker recursion gets
fuel (`none` = fuel ran out); `mermaidFuel` is proved sufficient for
well-formed inputs below. -/

structure MState where
  node_count : Nat
  loop_exit_stack : List String
  node_defs : List String
  edge_defs : List String
deriving DecidableEq, Repr

def mInit : MState := ⟨0, [], [], []⟩

/-- The `shapes` table of `MermaidGenerator._add_node`.  A shape outside
the six keys raises `KeyError` in Python; the walker requests such a shape
(`octagon`) only in its unknown-node fallback, which the Mermaid `genNode`
below therefore models as that error. -/
def mermaidShapeDelims (shape : String) : String × String :=
  if shape = "box" then ("[\"", "\"]")
  else if shape = "parallelogram" then ("[/\"", "/\"]")
  else if shape = "diamond" then ("\x7b\"", "\"\x7d")
  else if shape = "point" then ("((\"", "\"))")
  else if shape = "start" then ("(\"", "\")")
  else if shape = "ellipse" then ("(\"", "\")")
  else ("", "")

def mermaidAddNode (label shape : String) (st : MState) : String × MState :=
  let nodeId := "N" ++ toString st.node_count
  let safeLabel := pyReplace label "\"" "#quot;"
  let pr := mermaidShapeDelims shape
  (nodeId,
    { st with
      node_count := st.node_count + 1,
      node_defs := st.node_defs ++ ["  " ++ nodeId ++ pr.1 ++ safeLabel ++ pr.2] })

def mermaidAddEdge (fromId toId : String) (label : Option String)
    (st : MState) : MState :=
  if fromId = "" || toId = "" then st
  else
    let arrow :=
      match label with
      | some l => if l = "" then "-->" else "--\"" ++ l ++ "\"-->"
      | none => "-->"
    { st with
      edge_defs := st.edge_defs ++ ["  " ++ fromId ++ " " ++ arrow ++ " " ++ toId] }

def pushExit (x : String) (st : MState) : MState :=
  { st with loop_exit_stack := st.loop_exit_stack ++ [x] }

def popExit (st : MState) : MState :=
  { st with loop_exit_stack := st.loop_exit_stack.dropLast }

/-- The scan condition of `_try_visualize_raptor_loop`: an `IfStatement`
whose consequent body is nonempty, whose first consequent statement is a
`BreakStatement`, and whose alternate is `None`. -/
def isRaptorIfBreak : Ast → Bool
  | .ifStatement _ (.block (first :: _)) none => first.typeField = "BreakStatement"
  | _ => false

/-- First index (and test expression) of a body statement satisfying
`isRaptorIfBreak`, as found by the detector's linear scan. -/
def findIfBreak : Nat → List Ast → Option (Nat × Ast)
  | _, [] => none
  | i, n :: rest =>
    if isRaptorIfBreak n then
      some (i, match n with | .ifStatement t _ _ => t | _ => n)
    else findIfBreak (i + 1) rest

def pairsEntry : List (Option String × Option String) → Option String
  | [] => none
  | p :: _ => p.1

def pairsExit (l : List (Option String × Option String)) : Option String :=
  match l.getLast? with
  | some p => p.2
  | none => none

/-- The sequential linking loop of `_generate_from_nodes`: for adjacent
statements, link the exit of one to the entry of the next when both exist. -/
def linkSeq : List (Option String × Option String) → MState → MState
  | [], st => st
  | [_], st => st
  | p :: q :: rest, st =>
    let st1 :=
      match p.2, q.1 with
      | some a, some b => mermaidAddEdge a b none st
      | _, _ => st
    linkSeq (q :: rest) st1

mutual

/-- The walker `AstVisualizer._generate_node`; returns the entry and exit
node ids of the generated subgraph. -/
def genNode : Nat → Ast → MState →
    Option (Except String (Option String × Option String × MState))
  | 0, _, _ => none
  | _ + 1, .assignmentStatement l r, st =>
    let label := exprToStr l ++ " := " ++ exprToStr r
    let pr := mermaidAddNode label "box" st
    some (.ok (some pr.1, some pr.1, pr.2))
  | _ + 1, .expressionStatement e, st =>
    match e with
    | .callExpression "Output" (arg :: _) =>
      let pr := mermaidAddNode ("OUTPUT: " ++ exprToStr arg) "parallelogram" st
      some (.ok (some pr.1, some pr.1, pr.2))
    | .callExpression "Output" [] => some (.error "list index out of range")
    | _ => some (.error "KeyError: 'octagon'")
  | _ + 1, .breakStatement, st =>
    match st.loop_exit_stack.getLast? with
    | none => some (.error "BREAK statement found outside of a loop.")
    | some top =>
      let pr := mermaidAddNode " " "point" st
      let st2 := mermaidAddEdge pr.1 top none pr.2
      some (.ok (some pr.1, none, st2))
  | f + 1, .ifStatement test conseq alt, st =>
    let pr1 := mermaidAddNode (exprToStr test) "diamond" st
    let pr2 := mermaidAddNode " " "point" pr1.2
    match conseq with
    | .block conseqL =>
      match genStmts f conseqL pr2.2 with
      | none => none
      | some (.error e) => some (.error e)
      | some (.ok (tEntry, tExit, st3)) =>
        let st4 := mermaidAddEdge pr1.1 (tEntry.getD pr2.1) (some "True") st3
        let st5 :=
          match tExit with
          | some e2 => mermaidAddEdge e2 pr2.1 none st4
          | none => st4
        match alt with
        | some (.block altL) =>
          match genStmts f altL st5 with
          | none => none
          | some (.error e) => some (.error e)
          | some (.ok (fEntry, fExit, st6)) =>
            let st7 := mermaidAddEdge pr1.1 (fEntry.getD pr2.1) (some "False") st6
            let st8 :=
              match fExit with
              | some e2 => mermaidAddEdge e2 pr2.1 none st7
              | none => st7
            some (.ok (some pr1.1, some pr2.1, st8))
        | none =>
          match genStmts f ([] : List Ast) st5 with
          | none => none
          | some (.error e) => some (.error e)
          | some (.ok (fEntry, fExit, st6)) =>
            let st7 := mermaidAddEdge pr1.1 (fEntry.getD pr2.1) (some "False") st6
            let st8 :=
              match fExit with
              | some e2 => mermaidAddEdge e2 pr2.1 none st7
              | none => st7
            some (.ok (some pr1.1, some pr2.1, st8))
        | some _ => some (.error "KeyError: 'body'")
    | _ => some (.error "KeyError: 'body'")
  | f + 1, .whileStatement test body, st =>
    match body with
    | .block bl =>
      match tryVisualizeRaptorLoop f test bl st with
      | none => none
      | some (.error e) => some (.error e)
      | some (.ok (some r)) => some (.ok (some r.1, some r.2.1, r.2.2))
      | some (.ok none) =>
        let pr1 := mermaidAddNode (exprToStr test) "diamond" st
        let pr2 := mermaidAddNode " " "point" pr1.2
        let st3 := pushExit pr2.1 pr2.2
        match genStmts f bl st3 with
        | none => none
        | some (.error e) => some (.error e)
        | some (.ok (bEntry, bExit, st4)) =>
          let st5 := mermaidAddEdge pr1.1 (bEntry.getD pr1.1) (some "True") st4
          let st6 :=
            match bExit with
            | some e2 => mermaidAddEdge e2 pr1.1 none st5
            | none => st5
          let st7 := popExit st6
          let st8 := mermaidAddEdge pr1.1 pr2.1 (some "False") st7
          some (.ok (some pr1.1, some pr2.1, st8))
    | _ => some (.error "KeyError: 'body'")
  | _ + 1, _, _ => some (.error "KeyError: 'octagon'")

termination_by structural fuel _ _ => fuel
/-- The node-generating pass of `_generate_from_nodes` (the list
comprehension): generate every statement in order, collecting the
entry/exit pairs. -/
def genList : Nat → List Ast → MState →
    Option (Except String (List (Option String × Option String) × MState))
  | 0, _, _ => none
  | _ + 1, [], st => some (.ok ([], st))
  | f + 1, node :: rest, st =>
    match genNode f node st with
    | none => none
    | some (.error e) => some (.error e)
    | some (.ok (en, ex, st1)) =>
      match genList f rest st1 with
      | none => none
      | some (.error e) => some (.error e)
      | some (.ok (prs, st2)) => some (.ok ((en, ex) :: prs, st2))

termination_by structural fuel _ _ => fuel
/-- The full `_generate_from_nodes`: empty list short-circuits, otherwise
generate all nodes, link them sequentially, and return the first entry and
last exit. -/
def genStmts : Nat → List Ast → MState →
    Option (Except String (Option String × Option String × MState))
  | 0, _, _ => none
  | _ + 1, [], st => some (.ok (none, none, st))
  | f + 1, l, st =>
    match genList f l st with
    | none => none
    | some (.error e) => some (.error e)
    | some (.ok (prs, st1)) =>
      let st2 := linkSeq prs st1
      some (.ok (pairsEntry prs, pairsExit prs, st2))

termination_by structural fuel _ _ => fuel
/-- The mid-test idiom detector `_try_visualize_raptor_loop`: `ok none`
means the detector declined (the Python method returned `None`), otherwise
it fires and returns the loop entry, the loop's merge exit and the updated
state. -/
def tryVisualizeRaptorLoop : Nat → Ast → List Ast → MState →
    Option (Except String (Option (String × String × MState)))
  | 0, _, _, _ => none
  | f + 1, test, bl, st =>
    match test with
    | .literal (.bool true) =>
      match findIfBreak 0 bl with
      | none => some (.ok none)
      | some (i, ifTest) =>
        let pr1 := mermaidAddNode (exprToStr ifTest) "diamond" st
        let pr2 := mermaidAddNode " " "point" pr1.2
        let st3 := pushExit pr2.1 pr2.2
        let st4 := mermaidAddEdge pr1.1 pr2.1 (some "True") st3
        match genStmts f (bl.take i) st4 with
        | none => none
        | some (.error e) => some (.error e)
        | some (.ok (entryBefore, exitBefore, st5)) =>
          match genStmts f (bl.drop (i + 1)) st5 with
          | none => none
          | some (.error e) => some (.error e)
          | some (.ok (entryAfter, exitAfter, st6)) =>
            let loopEntry := entryBefore.getD pr1.1
            let st7 :=
              match exitBefore with
              | some e2 => mermaidAddEdge e2 pr1.1 none st6
              | none => st6
            let continuePath := entryAfter.getD loopEntry
            let st8 := mermaidAddEdge pr1.1 continuePath (some "False") st7
            let st9 :=
              match exitAfter with
              | some e2 => mermaidAddEdge e2 loopEntry none st8
              | none => st8
            let st10 := popExit st9
            some (.ok (some (loopEntry, pr2.1, st10)))
    | _ => some (.ok none)

termination_by structural fuel _ _ => fuel
end

/-! Sizes used to compute a sufficient walker fuel. -/

mutual

def astSize : Ast → Nat
  | .program b => listSize b + 1
  | .block b => listSize b + 1
  | .literal _ => 1
  | .identifier _ => 1
  | .binaryExpression _ l r => astSize l + astSize r + 1
  | .unaryExpression _ a => astSize a + 1
  | .callExpression _ args => listSize args + 1
  | .assignmentStatement l r => astSize l + astSize r + 1
  | .expressionStatement e => astSize e + 1
  | .ifStatement t c alt =>
    astSize t + astSize c + (match alt with | some a => astSize a | none => 0) + 1
  | .whileStatement t b => astSize t + astSize b + 1
  | .breakStatement => 1
  | .other _ => 1

def listSize : List Ast → Nat
  | [] => 0
  | a :: r => astSize a + listSize r + 1

end

def mermaidFuel (body : List Ast) : Nat := 4 * listSize body + 16

def walkFuelMsg : String := "walker fuel exhausted (model artifact)"

/-- The entry point `MermaidGenerator.generate` on an instance state `st`:
reset the per-call buffers, emit the Start node, walk the program body,
link Start/End, and return the output text together with the instance
state after the call. -/
def mermaidGenerate (st : MState) (ast : Ast) :
    Except String (String × MState) :=
  let st0 := { st with node_defs := [], edge_defs := [] }
  let pr0 := mermaidAddNode "Start" "start" st0
  let bodyE : Except String (List Ast) :=
    match ast with
    | .program l => .ok l
    | .block l => .ok l
    | _ => .error "KeyError: 'body'"
  match bodyE with
  | .error e => .error e
  | .ok body =>
    match genStmts (mermaidFuel body) body pr0.2 with
    | none => .error walkFuelMsg
    | some (.error e) => .error e
    | some (.ok (entry, exitN, st1)) =>
      let st2 :=
        match entry with
        | some e2 => mermaidAddEdge pr0.1 e2 none st1
        | none => st1
      let lastNode := exitN.getD pr0.1
      let pr3 := mermaidAddNode "End" "start" st2
      let st4 := mermaidAddEdge lastNode pr3.1 none pr3.2
      .ok ("graph TD;\n" ++ joinSep "\n" st4.node_defs ++ "\n\n"
        ++ joinSep "\n" st4.edge_defs, st4)

/-! ## Graphviz generator (`generation/graphviz_generator.py`)

The walker logic is the shared `AstVisualizer` traversal again, specialised
to the Graphviz backend: ids are `node{k}`, output accumulates into
`dot_code`, and `_add_node` builds the attribute list directly (no shape
table, so the unknown-node fallback's `octagon` shape renders fine here). -/

structure GvState where
  node_count : Nat
  loop_exit_stack : List String
  dot_code : String
deriving DecidableEq, Repr

def gvAddNode (label shape : String) (st : GvState) : String × GvState :=
  let nodeId := "node" ++ toString st.node_count
  let safeLabel :=
    pyReplace (pyReplace (pyReplace label "\\" "\\\\") "\"" "\\\"") "\n" "\\n"
  let attrs :=
    ["label=\"" ++ safeLabel ++ "\"", "shape=" ++ shape]
      ++ (if shape = "point" then ["width=\"0.1\"", "height=\"0.1\"", "label=\"\""]
          else [])
      ++ (if shape = "ellipse" then ["fillcolor=\"#f8f8f8\""] else [])
      ++ (if shape = "diamond" then ["fillcolor=\"#f0f8ff\""] else [])
  (nodeId,
    { st with
      node_count := st.node_count + 1,
      dot_code := st.dot_code ++ "  " ++ nodeId ++ " ["
        ++ joinSep ", " attrs ++ "];\n" })

def gvAddEdge (fromId toId : String) (label : Option String)
    (st : GvState) : GvState :=
  if fromId = "" || toId = "" then st
  else
    let attrs :=
      match label with
      | some l => if l = "" then [] else ["xlabel=\"" ++ l ++ "\""]
      | none => ([] : List String)
    { st with
      dot_code := st.dot_code ++ "  " ++ fromId ++ " -> " ++ toId ++ " ["
        ++ joinSep ", " attrs ++ "];\n" }

def gvPushExit (x : String) (st : GvState) : GvState :=
  { st with loop_exit_stack := st.loop_exit_stack ++ [x] }

def gvPopExit (st : GvState) : GvState :=
  { st with loop_exit_stack := st.loop_exit_stack.dropLast }

mutual

def gvGenNode : Nat → Ast → GvState →
    Option (Except String (Option String × Option String × GvState))
  | 0, _, _ => none
  | _ + 1, .assignmentStatement l r, st =>
    let label := exprToStr l ++ " := " ++ exprToStr r
    let pr := gvAddNode label "box" st
    some (.ok (some pr.1, some pr.1, pr.2))
  | _ + 1, .expressionStatement e, st =>
    match e with
    | .callExpression "Output" (arg :: _) =>
      let pr := gvAddNode ("OUTPUT: " ++ exprToStr arg) "parallelogram" st
      some (.ok (some pr.1, some pr.1, pr.2))
    | .callExpression "Output" [] => some (.error "list index out of range")
    | _ =>
      let pr := gvAddNode "Unknown Node:\nExpressionStatement" "octagon" st
      some (.ok (some pr.1, some pr.1, pr.2))
  | _ + 1, .breakStatement, st =>
    match st.loop_exit_stack.getLast? with
    | none => some (.error "BREAK statement found outside of a loop.")
    | some top =>
      let pr := gvAddNode " " "point" st
      let st2 := gvAddEdge pr.1 top none pr.2
      some (.ok (some pr.1, none, st2))
  | f + 1, .ifStatement test conseq alt, st =>
    let pr1 := gvAddNode (exprToStr test) "diamond" st
    let pr2 := gvAddNode " " "point" pr1.2
    match conseq with
    | .block conseqL =>
      match gvGenStmts f conseqL pr2.2 with
      | none => none
      | some (.error e) => some (.error e)
      | some (.ok (tEntry, tExit, st3)) =>
        let st4 := gvAddEdge pr1.1 (tEntry.getD pr2.1) (some "True") st3
        let st5 :=
          match tExit with
          | some e2 => gvAddEdge e2 pr2.1 none st4
          | none => st4
        let altE : Except String (List Ast) :=
          match alt with
          | some (.block altL) => .ok altL
          | none => .ok []
          | some _ => .error "KeyError: 'body'"
        match altE with
        | .error e => some (.error e)
        | .ok altL =>
          match gvGenStmts f altL st5 with
          | none => none
          | some (.error e) => some (.error e)
          | some (.ok (fEntry, fExit, st6)) =>
            let st7 := gvAddEdge pr1.1 (fEntry.getD pr2.1) (some "False") st6
            let st8 :=
              match fExit with
              | some e2 => gvAddEdge e2 pr2.1 none st7
              | none => st7
            some (.ok (some pr1.1, some pr2.1, st8))
    | _ => some (.error "KeyError: 'body'")
  | f + 1, .whileStatement test body, st =>
    match body with
    | .block bl =>
      match gvTryVisualizeRaptorLoop f test bl st with
      | none => none
      | some (.error e) => some (.error e)
      | some (.ok (some r)) => some (.ok (some r.1, some r.2.1, r.2.2))
      | some (.ok none) =>
        let pr1 := gvAddNode (exprToStr test) "diamond" st
        let pr2 := gvAddNode " " "point" pr1.2
        let st3 := gvPushExit pr2.1 pr2.2
        match gvGenStmts f bl st3 with
        | none => none
        | some (.error e) => some (.error e)
        | some (.ok (bEntry, bExit, st4)) =>
          let st5 := gvAddEdge pr1.1 (bEntry.getD pr1.1) (some "True") st4
          let st6 :=
            match bExit with
            | some e2 => gvAddEdge e2 pr1.1 none st5
            | none => st5
          let st7 := gvPopExit st6
          let st8 := gvAddEdge pr1.1 pr2.1 (some "False") st7
          some (.ok (some pr1.1, some pr2.1, st8))
    | _ => some (.error "KeyError: 'body'")
  | _ + 1, node, st =>
    let pr := gvAddNode ("Unknown Node:\n" ++ node.typeField) "octagon" st
    some (.ok (some pr.1, some pr.1, pr.2))

termination_by structural fuel _ _ => fuel
def gvGenList : Nat → List Ast → GvState →
    Option (Except String (List (Option String × Option String) × GvState))
  | 0, _, _ => none
  | _ + 1, [], st => some (.ok ([], st))
  | f + 1, node :: rest, st =>
    match gvGenNode f node st with
    | none => none
    | some (.error e) => some (.error e)
    | some (.ok (en, ex, st1)) =>
      match gvGenList f rest st1 with
      | none => none
      | some (.error e) => some (.error e)
      | some (.ok (prs, st2)) => some (.ok ((en, ex) :: prs, st2))

termination_by structural fuel _ _ => fuel
def gvLinkSeq : List (Option String × Option String) → GvState → GvState
  | [], st => st
  | [_], st => st
  | p :: q :: rest, st =>
    let st1 :=
      match p.2, q.1 with
      | some a, some b => gvAddEdge a b none st
      | _, _ => st
    gvLinkSeq (q :: rest) st1

def gvGenStmts : Nat → List Ast → GvState →
    Option (Except String (Option String × Option String × GvState))
  | 0, _, _ => none
  | _ + 1, [], st => some (.ok (none, none, st))
  | f + 1, l, st =>
    match gvGenList f l st with
    | none => none
    | some (.error e) => some (.error e)
    | some (.ok (prs, st1)) =>
      let st2 := gvLinkSeq prs st1
      some (.ok (pairsEntry prs, pairsExit prs, st2))

termination_by structural fuel _ _ => fuel
def gvTryVisualizeRaptorLoop : Nat → Ast → List Ast → GvState →
    Option (Except String (Option (String × String × GvState)))
  | 0, _, _, _ => none
  | f + 1, test, bl, st =>
    match test with
    | .literal (.bool true) =>
      match findIfBreak 0 bl with
      | none => some (.ok none)
      | some (i, ifTest) =>
        let pr1 := gvAddNode (exprToStr ifTest) "diamond" st
        let pr2 := gvAddNode " " "point" pr1.2
        let st3 := gvPushExit pr2.1 pr2.2
        let st4 := gvAddEdge pr1.1 pr2.1 (some "True") st3
        match gvGenStmts f (bl.take i) st4 with
        | none => none
        | some (.error e) => some (.error e)
        | some (.ok (entryBefore, exitBefore, st5)) =>
          match gvGenStmts f (bl.drop (i + 1)) st5 with
          | none => none
          | some (.error e) => some (.error e)
          | some (.ok (entryAfter, exitAfter, st6)) =>
            let loopEntry := entryBefore.getD pr1.1
            let st7 :=
              match exitBefore with
              | some e2 => gvAddEdge e2 pr1.1 none st6
              | none => st6
            let continuePath := entryAfter.getD loopEntry
            let st8 := gvAddEdge pr1.1 continuePath (some "False") st7
            let st9 :=
              match exitAfter with
              | some e2 => gvAddEdge e2 loopEntry none st8
              | none => st8
            let st10 := gvPopExit st9
            some (.ok (some (loopEntry, pr2.1, st10)))
    | _ => some (.ok none)

termination_by structural fuel _ _ => fuel
end

def gvHeader : String :=
  "digraph Flowchart \x7b\n  graph [splines=ortho];\n"
    ++ "  node [fontname=\"Helvetica\", fontsize=10, style=\"rounded,filled\", fillcolor=white];\n"
    ++ "  edge [fontname=\"Helvetica\", fontsize=9];\n\n"

def gvInit : GvState := ⟨0, [], ""⟩

/-- The entry point `GraphvizGenerator.generate` on an instance state. -/
def graphvizGenerate (st : GvState) (ast : Ast) :
    Except String (String × GvState) :=
  let st0 := { st with dot_code := gvHeader }
  let pr0 := gvAddNode "Start" "ellipse" st0
  let bodyE : Except String (List Ast) :=
    match ast with
    | .program l => .ok l
    | .block l => .ok l
    | _ => .error "KeyError: 'body'"
  match bodyE with
  | .error e => .error e
  | .ok body =>
    match gvGenStmts (mermaidFuel body) body pr0.2 with
    | none => .error walkFuelMsg
    | some (.error e) => .error e
    | some (.ok (entry, exitN, st1)) =>
      let st2 :=
        match entry with
        | some e2 => gvAddEdge pr0.1 e2 none st1
        | none => st1
      let lastNode := exitN.getD pr0.1
      let pr3 := gvAddNode "End" "ellipse" st2
      let st4 := gvAddEdge lastNode pr3.1 none pr3.2
      .ok (st4.dot_code ++ "\x7d\n", st4)

/-! ## Data-model predicates

`wfStmt` says a node is a statement of the §3 data model: statement kinds
only, `IfStatement`/`WhileStatement` bodies wrapped in Block nodes (as the
factories guarantee), and `ExpressionStatement` wrapping an `Output` call
with at least one argument.  `stmtBreakOk` says every `BreakStatement` in
the statement sits inside at least one enclosing `WhileStatement`. -/

mutual

def wfStmt : Ast → Bool
  | .assignmentStatement _ _ => true
  | .expressionStatement (.callExpression c (_ :: _)) => c = "Output"
  | .expressionStatement _ => false
  | .ifStatement _ (.block cl) none => wfList cl
  | .ifStatement _ (.block cl) (some (.block al)) => wfList cl && wfList al
  | .ifStatement _ _ _ => false
  | .whileStatement _ (.block bl) => wfList bl
  | .whileStatement _ _ => false
  | .breakStatement => true
  | _ => false

def wfList : List Ast → Bool
  | [] => true
  | a :: r => wfStmt a && wfList r

end

def wfProgram : Ast → Bool
  | .program l => wfList l
  | _ => false

mutual

def stmtBreakOk : Ast → Bool
  | .breakStatement => false
  | .ifStatement _ (.block cl) none => listBreakOk cl
  | .ifStatement _ (.block cl) (some (.block al)) => listBreakOk cl && listBreakOk al
  | .whileStatement _ _ => true
  | _ => true

def listBreakOk : List Ast → Bool
  | [] => true
  | a :: r => stmtBreakOk a && listBreakOk r

end

def programBreakOk : Ast → Bool
  | .program l => listBreakOk l
  | _ => true

/-! ## Claim C9 -/

/-- C9: the expression parser honors the precedence table — the token slice
`1 + 2 * 3` parses with the multiplication bound tighter and prints as
`(1 + (2 * 3))`; and at the comparison level only one comparison operator
is accepted, so `a < b < c` fails with the unexpected-token error on the
second `<`. -/
theorem precedence_and_comparison :
    expressionParserParse ["1", "+", "2", "*", "3"]
      = .ok (some (.binaryExpression "+" (.literal (.int 1))
          (.binaryExpression "*" (.literal (.int 2)) (.literal (.int 3))))) ∧
    expression_to_string (.binaryExpression "+" (.literal (.int 1))
        (.binaryExpression "*" (.literal (.int 2)) (.literal (.int 3))))
      = .ok "(1 + (2 * 3))" ∧
    expressionParserParse ["a", "<", "b", "<", "c"]
      = .error "Unexpected token: '<'" := by
  refine ⟨?_, ?_, ?_⟩ <;> with_unfolding_all rfl

/-! ## Claim C8 -/

/-- C8 counterexample: the statement parser's output for `IF x THEN ENDIF`
carries a consequent block node whose `type` field is `"BlockStatement"`,
not `"Block"` as the claim states. -/
theorem block_type_counterexample :
    rapcodeParse 32 "IF x THEN\nENDIF"
      = some (.ok (.program [.ifStatement (.identifier "x") (.block []) none])) ∧
    (Ast.block []).typeField = "BlockStatement" ∧
    (Ast.block []).typeField ≠ "Block" := by
  refine ⟨?_, ?_, ?_⟩
  · with_unfolding_all rfl
  · rfl
  · decide

/-- C8 amended: every node built by the factories carries the §3 kind name
in its `type` field, except the statement-sequence node (built by
`create_block`, used for `IfStatement` consequents/alternates and
`WhileStatement` bodies), whose `type` field is the string
`"BlockStatement"` rather than `"Block"`. -/
theorem node_type_field_names :
    (∀ b, (create_program b).typeField = "Program") ∧
    (∀ b, (create_block b).typeField = "BlockStatement") ∧
    (∀ v, (create_literal v).typeField = "Literal") ∧
    (∀ n, (create_identifier n).typeField = "Identifier") ∧
    (∀ op l r, (create_binary_expression op l r).typeField = "BinaryExpression") ∧
    (∀ op a, (create_unary_expression op a).typeField = "UnaryExpression") ∧
    (∀ c args, (create_call_expression c args).typeField = "CallExpression") ∧
    (∀ p, (create_input_expression p).typeField = "CallExpression") ∧
    (∀ a, (create_output_statement a).typeField = "ExpressionStatement") ∧
    (∀ l r, (create_assignment_statement l r).typeField = "AssignmentStatement") ∧
    (∀ t cb ab, (create_if_statement t cb ab).typeField = "IfStatement"
      ∧ (create_if_statement t cb ab) = .ifStatement t (create_block cb)
          (ab.map create_block)) ∧
    (∀ t b, (create_while_statement t b).typeField = "WhileStatement"
      ∧ (create_while_statement t b) = .whileStatement t (create_block b)) ∧
    create_break_statement.typeField = "BreakStatement" := by
  refine ⟨fun _ => rfl, fun _ => rfl, ?_, fun _ => rfl, fun _ _ _ => rfl,
    fun _ _ => rfl, fun _ _ => rfl, fun _ => rfl, fun _ => rfl,
    fun _ _ => rfl, fun _ _ _ => ⟨rfl, rfl⟩, fun _ _ => ⟨rfl, rfl⟩, rfl⟩
  intro v
  unfold create_literal
  split
  · split <;> rfl
  · rfl

/-! ## Claim C2 -/

/-- C2: the generate-then-parse round trip is not AST-stable.  Parsing
`IF x THEN ELSE ENDIF` yields an `IfStatement` with an *empty alternate
block*; the generator emits no `ELSE` for an empty alternate, so reparsing
its output yields an `IfStatement` with an *absent* alternate — a
structurally different AST, not a whitespace or operand-order difference. -/
theorem roundtrip_empty_else_failure :
    rapcodeParse 32 "IF x THEN\nELSE\nENDIF"
      = some (.ok (.program
          [.ifStatement (.identifier "x") (.block []) (some (.block []))])) ∧
    rapcodeGenerate (.program
        [.ifStatement (.identifier "x") (.block []) (some (.block []))])
      = .ok "IF x THEN\nENDIF" ∧
    rapcodeParse 32 "IF x THEN\nENDIF"
      = some (.ok (.program [.ifStatement (.identifier "x") (.block []) none])) ∧
    (Ast.program [.ifStatement (.identifier "x") (.block []) (some (.block []))])
      ≠ .program [.ifStatement (.identifier "x") (.block []) none] := by
  refine ⟨?_, ?_, ?_, ?_⟩
  · with_unfolding_all rfl
  · with_unfolding_all rfl
  · with_unfolding_all rfl
  · simp

/-! ## Claim C4 -/

/-- The token list of the unterminated-loop input `LOOP\nx := 1`. -/
def c4toks : List String := ["LOOP", NEWLINE, "x", ":=", "1"]

/-- At end of input inside a `LOOP` body, `_parse_statement` returns `None`
without consuming anything, so the body loop re-enters the same state
forever: the embedding returns `none` (fuel exhausted) for every fuel. -/
theorem spLoopBody_eof (k : Nat) :
    ∀ acc, spLoopBody k c4toks 5 acc = none := by
  induction k with
  | zero => intro acc; with_unfolding_all rfl
  | succ m ih =>
    intro acc
    cases m with
    | zero => with_unfolding_all rfl
    | succ m2 =>
      have h1 : spLoopBody (m2 + 1 + 1) c4toks 5 acc
          = spLoopBody (m2 + 1) c4toks 5 acc := by with_unfolding_all rfl
      rw [h1]
      exact ih acc

theorem spLoopBody_c4_start (k : Nat) :
    spLoopBody k c4toks 1 [] = none := by
  match k with
  | 0 => with_unfolding_all rfl
  | 1 => with_unfolding_all rfl
  | m + 2 =>
    have h : spLoopBody (m + 2) c4toks 1 []
        = spLoopBody (m + 1) c4toks 5
            [.assignmentStatement (.identifier "x") (.literal (.int 1))] := by
      with_unfolding_all rfl
    rw [h]
    exact spLoopBody_eof (m + 1) _

theorem parse_loop_c4 (k : Nat) : parse_loop k c4toks 0 = none := by
  match k with
  | 0 => with_unfolding_all rfl
  | 1 => with_unfolding_all rfl
  | m + 2 =>
    have h : parse_loop (m + 2) c4toks 0
        = (match spLoopBody (m + 1) c4toks 1 [] with
           | none => none
           | some (.error e) => some (.error e)
           | some (.ok (body, p3)) =>
             match epExpect c4toks p3 "ENDLOOP" with
             | .error e => some (.error e)
             | .ok p4 => some (.ok
                 (create_while_statement (create_literal (.bool true)) body, p4))) := by
      with_unfolding_all rfl
    rw [h, spLoopBody_c4_start]

theorem parse_statement_c4 (k : Nat) :
    parse_statement k c4toks 0 = none := by
  match k with
  | 0 => with_unfolding_all rfl
  | g + 1 =>
    have h : parse_statement (g + 1) c4toks 0
        = spMapSome (parse_loop g c4toks 0) := by
      with_unfolding_all rfl
    rw [h, parse_loop_c4]
    rfl

theorem spProgramLoop_c4 (fuel : Nat) :
    spProgramLoop fuel c4toks 0 [] = none := by
  match fuel with
  | 0 => with_unfolding_all rfl
  | f + 1 =>
    have h : spProgramLoop (f + 1) c4toks 0 []
        = (match parse_statement f c4toks 0 with
           | none => none
           | some (.error e) => some (.error e)
           | some (.ok (stmtOpt, p1)) =>
             match stmtOpt with
             | some st => spProgramLoop f c4toks (spSkipNewlines c4toks p1) (st :: [])
             | none => spProgramLoop f c4toks (spSkipNewlines c4toks p1) []) := by
      with_unfolding_all rfl
    rw [h, parse_statement_c4]

/-- C4: on the unterminated input `LOOP\nx := 1` (no `ENDLOOP` before end
of input) the statement parser does not terminate — for every fuel the
embedding exhausts it without returning a result, because at end of input
`_parse_statement` returns `None` without consuming a token and
`_parse_loop`'s body loop appends it and retries the same state forever.
The claim's `ParseError{kind=UnexpectedEOF}` is never raised. -/
theorem unterminated_loop_nontermination (fuel : Nat) :
    rapcodeParse fuel "LOOP\nx := 1" = none := by
  have h2 : rapcodeParse fuel "LOOP\nx := 1"
      = (match spProgramLoop fuel c4toks 0 [] with
         | none => none
         | some (.error e) => some (.error e)
         | some (.ok (stmts, _)) => some (.ok (create_program stmts))) := by
    with_unfolding_all rfl
  rw [h2, spProgramLoop_c4]

/-! ## Claim C5 -/

/-- C5 counterexample: two `generate` calls on the same Mermaid generator
instance do not produce byte-identical output — the node counter is not
reset between calls, so the second output's ids start at `N3`. -/
theorem generate_counter_counterexample :
    mermaidGenerate mInit
        (.program [.assignmentStatement (.identifier "x") (.literal (.int 1))])
      = .ok ("graph TD;\n  N0(\"Start\")\n  N1[\"x := 1\"]\n  N2(\"End\")\n\n  N0 --> N1\n  N1 --> N2",
          ⟨3, [], ["  N0(\"Start\")", "  N1[\"x := 1\"]", "  N2(\"End\")"],
           ["  N0 --> N1", "  N1 --> N2"]⟩) ∧
    mermaidGenerate
        ⟨3, [], ["  N0(\"Start\")", "  N1[\"x := 1\"]", "  N2(\"End\")"],
         ["  N0 --> N1", "  N1 --> N2"]⟩
        (.program [.assignmentStatement (.identifier "x") (.literal (.int 1))])
      = .ok ("graph TD;\n  N3(\"Start\")\n  N4[\"x := 1\"]\n  N5(\"End\")\n\n  N3 --> N4\n  N4 --> N5",
          ⟨6, [], ["  N3(\"Start\")", "  N4[\"x := 1\"]", "  N5(\"End\")"],
           ["  N3 --> N4", "  N4 --> N5"]⟩) ∧
    ("graph TD;\n  N0(\"Start\")\n  N1[\"x := 1\"]\n  N2(\"End\")\n\n  N0 --> N1\n  N1 --> N2" : String)
      ≠ "graph TD;\n  N3(\"Start\")\n  N4[\"x := 1\"]\n  N5(\"End\")\n\n  N3 --> N4\n  N4 --> N5" := by
  refine ⟨?_, ?_, ?_⟩
  · with_unfolding_all rfl
  · with_unfolding_all rfl
  · decide

/-- C5 amended: the node/edge buffers are reset at the start of each
`generate` call, but the node counter and loop-exit stack belong to the
generator instance and are not reset, so the result of `generate` depends
on the instance state only through those two fields: two calls from states
agreeing on them (in particular, calls on fresh instances, and repeated
runs) produce identical results, while two successive calls on one
instance differ in their node ids. -/
theorem generate_state_dependence (ast : Ast) (s1 s2 : MState)
    (hc : s1.node_count = s2.node_count)
    (hs : s1.loop_exit_stack = s2.loop_exit_stack) :
    mermaidGenerate s1 ast = mermaidGenerate s2 ast := by
  cases s1
  cases s2
  cases hc
  cases hs
  with_unfolding_all rfl

theorem generate_state_dependence_witness :
    mermaidGenerate ⟨0, [], ["stale node def"], ["stale edge def"]⟩
        (.program [.assignmentStatement (.identifier "x") (.literal (.int 1))])
      = mermaidGenerate mInit
        (.program [.assignmentStatement (.identifier "x") (.literal (.int 1))]) :=
  generate_state_dependence _ _ _ rfl rfl

/-! ## Claim C7 -/

/-- C7 counterexample: FlowLang generation of a program whose only
statement has the unknown kind `FooNode` does not fail with a
`GenerationError` — the statement is silently skipped and generation
returns the empty program text. -/
theorem unknown_node_rapcode_counterexample :
    rapcodeGenerate (.program [.other "FooNode"]) = .ok "" := by
  with_unfolding_all rfl

/-- C7 amended: a statement node of unknown kind is silently skipped (not
fatal) by FlowLang generation; the Graphviz diagram generator renders it as
a labeled `Unknown Node` octagon and succeeds; the Mermaid diagram
generator reaches the same fallback but crashes with `KeyError: 'octagon'`
because its shape table has no `octagon` entry. -/
theorem unknown_node_generation_behaviour :
    (∀ ty : String,
      ty ∉ ["Program", "BlockStatement", "Literal", "Identifier",
            "BinaryExpression", "UnaryExpression", "CallExpression",
            "AssignmentStatement", "ExpressionStatement", "IfStatement",
            "WhileStatement", "BreakStatement"] →
      rapcodeGenerate (.program [.other ty]) = .ok "") ∧
    (graphvizGenerate gvInit (.program [.other "FooNode"])).toOption.map Prod.fst
      = some ("digraph Flowchart \x7b\n  graph [splines=ortho];\n  node [fontname=\"Helvetica\", fontsize=10, style=\"rounded,filled\", fillcolor=white];\n  edge [fontname=\"Helvetica\", fontsize=9];\n\n  node0 [label=\"Start\", shape=ellipse, fillcolor=\"#f8f8f8\"];\n  node1 [label=\"Unknown Node:\\nFooNode\", shape=octagon];\n  node0 -> node1 [];\n  node2 [label=\"End\", shape=ellipse, fillcolor=\"#f8f8f8\"];\n  node1 -> node2 [];\n\x7d\n") ∧
    mermaidGenerate mInit (.program [.other "FooNode"])
      = .error "KeyError: 'octagon'" := by
  refine ⟨?_, ?_, ?_⟩
  · intro ty _
    with_unfolding_all rfl
  · with_unfolding_all rfl
  · with_unfolding_all rfl

theorem unknown_node_generation_behaviour_witness :
    rapcodeGenerate (.program [.other "FooNode"]) = .ok "" :=
  unknown_node_generation_behaviour.1 "FooNode" (by decide)

/-! ## Claim C1 -/

/-- C1: for a FlowXML Loop node whose exit-condition text parses to `e`,
whose before-child chain translates to `B`, whose after-child chain
translates to `A` and whose successor chain translates to `S`, the
translator emits exactly
`WhileStatement(true, B ++ [If(e, [Break], no alternate)] ++ A)`
followed by `S`. -/
theorem loop_midtest_translation
    (E prompt isInput : String) (left rightc before after succ : Option RNode)
    (e : Ast) (B A S : List Ast)
    (he : raptorParseExpression E = .ok (some e))
    (hb : parse_raptor_node before = .ok B)
    (ha : parse_raptor_node after = .ok A)
    (hs : parse_raptor_node succ = .ok S) :
    parse_raptor_node (some (.mk "Loop" E prompt isInput left rightc before after succ))
      = .ok (.whileStatement (.literal (.bool true))
          (.block (B ++ [.ifStatement e (.block [.breakStatement]) none] ++ A)) :: S) := by
  simp only [parse_raptor_node]
  simp only [he, hb, ha, hs]
  simp [requireSomeExpr, create_if_statement, create_while_statement, create_block,
    create_break_statement, create_literal, Except.bind, bind]

theorem loop_midtest_translation_witness :
    parse_raptor_node (some (.mk "Loop" "x = 10" "" "false" none none none
        (some (.mk "Rectangle" "x := x + 1" "" "false" none none none none none)) none))
      = .ok (.whileStatement (.literal (.bool true))
          (.block ([]
            ++ [.ifStatement (.binaryExpression "==" (.identifier "x") (.literal (.int 10)))
                  (.block [.breakStatement]) none]
            ++ [.assignmentStatement (.identifier "x")
                  (.binaryExpression "+" (.identifier "x") (.literal (.int 1)))])) :: []) :=
  loop_midtest_translation "x = 10" "" "false" none none none
    (some (.mk "Rectangle" "x := x + 1" "" "false" none none none none none)) none
    (.binaryExpression "==" (.identifier "x") (.literal (.int 10)))
    []
    [.assignmentStatement (.identifier "x")
      (.binaryExpression "+" (.identifier "x") (.literal (.int 1)))]
    []
    (by with_unfolding_all rfl) (by with_unfolding_all rfl)
    (by with_unfolding_all rfl) (by with_unfolding_all rfl)

/-! ## Claim C10 -/

theorem pyStripData_ends (c d : Char) (m : List Char)
    (hc : pyIsSpace c = false) (hd : pyIsSpace d = false) :
    pyStripData (c :: (m ++ [d])) = c :: (m ++ [d]) := by
  unfold pyStripData
  rw [List.dropWhile_cons]
  simp [hc, hd, List.reverse_append, List.dropWhile_cons]

theorem strEndsQuote2 (r : List Char) :
    pyEndsWith ⟨'"' :: '"' :: (r ++ ['"', '"'])⟩ '"' = true := by
  simp only [pyEndsWith, decide_eq_true_eq]
  rw [show ('"' :: '"' :: (r ++ ['"', '"'])) = ('"' :: '"' :: (r ++ ['"'])) ++ ['"'] by simp,
    List.getLast?_concat]

theorem strEndsQuote1 (r : List Char) :
    pyEndsWith ⟨'"' :: (r ++ ['"'])⟩ '"' = true := by
  simp only [pyEndsWith, decide_eq_true_eq]
  rw [show ('"' :: (r ++ ['"'])) = ('"' :: r) ++ ['"'] by simp, List.getLast?_concat]

theorem dropEnds2 (r : List Char) :
    pyDropEnds ⟨'"' :: '"' :: (r ++ ['"', '"'])⟩ = ⟨'"' :: (r ++ ['"'])⟩ := by
  simp only [pyDropEnds]
  congr 1
  rw [List.drop_one, List.tail_cons,
    show ('"' :: (r ++ ['"', '"'])) = ('"' :: (r ++ ['"'])) ++ ['"'] by simp,
    List.dropLast_concat]

theorem dropEnds1 (r : List Char) :
    pyDropEnds ⟨'"' :: (r ++ ['"'])⟩ = ⟨r⟩ := by
  simp only [pyDropEnds]
  congr 1
  rw [List.drop_one, List.tail_cons, List.dropLast_concat]

theorem stripQuotes_noop (r : List Char) :
    pyStrip ⟨'"' :: '"' :: (r ++ ['"', '"'])⟩ = ⟨'"' :: '"' :: (r ++ ['"', '"'])⟩ := by
  simp only [pyStrip]
  congr 1
  rw [show ('"' :: '"' :: (r ++ ['"', '"'])) = '"' :: (('"' :: r ++ ['"']) ++ ['"']) by simp]
  exact pyStripData_ends _ _ _ (by decide) (by decide)

/-- C10: for a Parallelogram input node whose `_prompt` text is a doubly
double-quoted string `""r""`, the translator strips the outer quote pair
and then `create_literal` re-strips the remaining pair, so the stored
Literal prompt value is the bare `r` — both quote pairs are lost. -/
theorem double_quoted_prompt_double_strip (x : String) (r : List Char) :
    parse_raptor_node (some (.mk "Parallelogram" x ⟨'"' :: '"' :: (r ++ ['"', '"'])⟩ "true"
        none none none none none))
      = .ok [.assignmentStatement (.identifier (pyStrip x))
          (.callExpression "Input" [.literal (.str ⟨r⟩)])] := by
  simp only [parse_raptor_node]
  simp [stripQuotes_noop, strEndsQuote2, dropEnds2, strEndsQuote1, dropEnds1,
    create_literal, create_assignment_statement, create_identifier,
    create_input_expression, pyStartsWith, pyLower, Except.bind, bind]

/-! ## Claim C3 -/

/-- C3 counterexample: the detector fires on a `While(true)` body whose
only `IfStatement` has the consequent `[Break; y := 2]` — not "exactly the
one statement `[Break]`" as the claim requires: the scan only checks that
the first consequent statement is a Break. -/
theorem midtest_detector_counterexample :
    tryVisualizeRaptorLoop 50 (.literal (.bool true))
        [.ifStatement (.binaryExpression "==" (.identifier "x") (.literal (.int 10)))
           (.block [.breakStatement,
                    .assignmentStatement (.identifier "y") (.literal (.int 2))]) none]
        mInit
      = some (.ok (some ("N0", "N1",
          ⟨2, [], ["  N0\x7b\"(x == 10)\"\x7d", "  N1((\" \"))"],
           ["  N0 --\"True\"--> N1", "  N0 --\"False\"--> N0"]⟩))) ∧
    (Ast.block [.breakStatement,
                .assignmentStatement (.identifier "y") (.literal (.int 2))])
      ≠ .block [.breakStatement] := by
  constructor
  · with_unfolding_all rfl
  · simp

theorem findIfBreak_none_iff (bl : List Ast) :
    ∀ i, (findIfBreak i bl = none ↔ bl.any isRaptorIfBreak = false) := by
  induction bl with
  | nil => intro i; simp [findIfBreak]
  | cons n rest ih =>
    intro i
    by_cases h : isRaptorIfBreak n
    · simp [findIfBreak, h]
    · simp [findIfBreak, h, ih (i + 1)]

/-- C3 amended: the mid-test detector fires exactly when the while test is
the literal `true` and the body contains an `IfStatement` whose consequent
body is *nonempty with a `BreakStatement` as its first statement* and whose
alternate is absent (`isRaptorIfBreak`); for the first such `IfStatement`
the loop is rendered as a mid-test loop — one decision node labeled with
that if's test, a `True` edge to the loop's merge exit — and the if-break
statement itself is not rendered, as the concrete S3 scenario output
shows. -/
theorem midtest_detector_characterisation :
    (∀ (f : Nat) (test : Ast) (bl : List Ast) (st : MState), wfList bl = true →
      (tryVisualizeRaptorLoop (f + 1) test bl st ≠ some (.ok none)
        ↔ (test = .literal (.bool true) ∧ bl.any isRaptorIfBreak = true))) ∧
    mermaidGenerate mInit
        (.program [.whileStatement (.literal (.bool true)) (.block
          [.ifStatement (.binaryExpression "==" (.identifier "x") (.literal (.int 10)))
             (.block [.breakStatement]) none,
           .assignmentStatement (.identifier "x")
             (.binaryExpression "+" (.identifier "x") (.literal (.int 1)))])])
      = .ok ("graph TD;\n  N0(\"Start\")\n  N1\x7b\"(x == 10)\"\x7d\n  N2((\" \"))\n  N3[\"x := (x + 1)\"]\n  N4(\"End\")\n\n  N1 --\"True\"--> N2\n  N1 --\"False\"--> N3\n  N3 --> N1\n  N0 --> N1\n  N2 --> N4",
          ⟨5, [], ["  N0(\"Start\")", "  N1\x7b\"(x == 10)\"\x7d", "  N2((\" \"))",
                   "  N3[\"x := (x + 1)\"]", "  N4(\"End\")"],
           ["  N1 --\"True\"--> N2", "  N1 --\"False\"--> N3", "  N3 --> N1",
            "  N0 --> N1", "  N2 --> N4"]⟩) := by
  constructor
  · intro f test bl st _
    constructor
    · intro hne
      by_contra hc
      rw [not_and_or] at hc
      rcases hc with hc | hc
      · apply hne
        cases test with
        | literal v =>
          cases v with
          | bool b =>
            cases b with
            | true => exact absurd rfl hc
            | false => with_unfolding_all rfl
          | int n => with_unfolding_all rfl
          | float s => with_unfolding_all rfl
          | str s => with_unfolding_all rfl
        | program b => with_unfolding_all rfl
        | block b => with_unfolding_all rfl
        | identifier n => with_unfolding_all rfl
        | binaryExpression op l r => with_unfolding_all rfl
        | unaryExpression op a => with_unfolding_all rfl
        | callExpression c args => with_unfolding_all rfl
        | assignmentStatement l r => with_unfolding_all rfl
        | expressionStatement e => with_unfolding_all rfl
        | ifStatement t c a => with_unfolding_all rfl
        | whileStatement t b => with_unfolding_all rfl
        | breakStatement => with_unfolding_all rfl
        | other ty => with_unfolding_all rfl
      · -- the body has no if-break: if the test is not literal true the
        -- detector declines anyway; if it is, the scan returns none
        apply hne
        simp only [Bool.not_eq_true] at hc
        have hfind : findIfBreak 0 bl = none := (findIfBreak_none_iff bl 0).mpr hc
        cases test with
        | literal v =>
          cases v with
          | bool b =>
            cases b with
            | true =>
              have h1 : tryVisualizeRaptorLoop (f + 1) (.literal (.bool true)) bl st
                  = (match findIfBreak 0 bl with
                     | none => some (.ok none)
                     | some (i, ifTest) =>
                       let pr1 := mermaidAddNode (exprToStr ifTest) "diamond" st
                       let pr2 := mermaidAddNode " " "point" pr1.2
                       let st3 := pushExit pr2.1 pr2.2
                       let st4 := mermaidAddEdge pr1.1 pr2.1 (some "True") st3
                       match genStmts f (bl.take i) st4 with
                       | none => none
                       | some (.error e) => some (.error e)
                       | some (.ok (entryBefore, exitBefore, st5)) =>
                         match genStmts f (bl.drop (i + 1)) st5 with
                         | none => none
                         | some (.error e) => some (.error e)
                         | some (.ok (entryAfter, exitAfter, st6)) =>
                           let loopEntry := entryBefore.getD pr1.1
                           let st7 :=
                             match exitBefore with
                             | some e2 => mermaidAddEdge e2 pr1.1 none st6
                             | none => st6
                           let continuePath := entryAfter.getD loopEntry
                           let st8 := mermaidAddEdge pr1.1 continuePath (some "False") st7
                           let st9 :=
                             match exitAfter with
                             | some e2 => mermaidAddEdge e2 loopEntry none st8
                             | none => st8
                           let st10 := popExit st9
                           some (.ok (some (loopEntry, pr2.1, st10)))) := by
                with_unfolding_all rfl
              rw [h1, hfind]
            | false => with_unfolding_all rfl
          | int n => with_unfolding_all rfl
          | float s => with_unfolding_all rfl
          | str s => with_unfolding_all rfl
        | program b => with_unfolding_all rfl
        | block b => with_unfolding_all rfl
        | identifier n => with_unfolding_all rfl
        | binaryExpression op l r => with_unfolding_all rfl
        | unaryExpression op a => with_unfolding_all rfl
        | callExpression c args => with_unfolding_all rfl
        | assignmentStatement l r => with_unfolding_all rfl
        | expressionStatement e => with_unfolding_all rfl
        | ifStatement t c a => with_unfolding_all rfl
        | whileStatement t b => with_unfolding_all rfl
        | breakStatement => with_unfolding_all rfl
        | other ty => with_unfolding_all rfl
    · rintro ⟨ht, hany⟩ heq
      subst ht
      obtain ⟨⟨i, ifTest⟩, hfind⟩ :
          ∃ p, findIfBreak 0 bl = some p := by
        cases hf : findIfBreak 0 bl with
        | none =>
          rw [(findIfBreak_none_iff bl 0).mp hf] at hany
          exact absurd hany (by simp)
        | some p => exact ⟨p, rfl⟩
      have h1 : tryVisualizeRaptorLoop (f + 1) (.literal (.bool true)) bl st
          = (match findIfBreak 0 bl with
             | none => some (.ok none)
             | some (i, ifTest) =>
               let pr1 := mermaidAddNode (exprToStr ifTest) "diamond" st
               let pr2 := mermaidAddNode " " "point" pr1.2
               let st3 := pushExit pr2.1 pr2.2
               let st4 := mermaidAddEdge pr1.1 pr2.1 (some "True") st3
               match genStmts f (bl.take i) st4 with
               | none => none
               | some (.error e) => some (.error e)
               | some (.ok (entryBefore, exitBefore, st5)) =>
                 match genStmts f (bl.drop (i + 1)) st5 with
                 | none => none
                 | some (.error e) => some (.error e)
                 | some (.ok (entryAfter, exitAfter, st6)) =>
                   let loopEntry := entryBefore.getD pr1.1
                   let st7 :=
                     match exitBefore with
                     | some e2 => mermaidAddEdge e2 pr1.1 none st6
                     | none => st6
                   let continuePath := entryAfter.getD loopEntry
                   let st8 := mermaidAddEdge pr1.1 continuePath (some "False") st7
                   let st9 :=
                     match exitAfter with
                     | some e2 => mermaidAddEdge e2 loopEntry none st8
                     | none => st8
                   let st10 := popExit st9
                   some (.ok (some (loopEntry, pr2.1, st10)))) := by
        with_unfolding_all rfl
      rw [h1, hfind] at heq
      rcases hg1 : genStmts f (bl.take i)
          (mermaidAddEdge (mermaidAddNode (exprToStr ifTest) "diamond" st).1
            (mermaidAddNode " " "point" (mermaidAddNode (exprToStr ifTest) "diamond" st).2).1
            (some "True")
            (pushExit
              (mermaidAddNode " " "point" (mermaidAddNode (exprToStr ifTest) "diamond" st).2).1
              (mermaidAddNode " " "point" (mermaidAddNode (exprToStr ifTest) "diamond" st).2).2))
          with _ | r1
      · simp [hg1] at heq
      · rcases r1 with e1 | ⟨eb, xb, st5⟩
        · simp [hg1] at heq
        · rcases hg2 : genStmts f (bl.drop (i + 1)) st5 with _ | r2
          · simp [hg1, hg2] at heq
          · rcases r2 with e2 | ⟨ea, xa, st6⟩
            · simp [hg1, hg2] at heq
            · simp [hg1, hg2] at heq
  · with_unfolding_all rfl

theorem midtest_detector_characterisation_witness :
    wfList [.ifStatement (.binaryExpression "==" (.identifier "x") (.literal (.int 10)))
              (.block [.breakStatement]) none] = true ∧
    (tryVisualizeRaptorLoop 50 (.literal (.bool true))
        [.ifStatement (.binaryExpression "==" (.identifier "x") (.literal (.int 10)))
           (.block [.breakStatement]) none] mInit ≠ some (.ok none)
      ↔ ((Ast.literal (.bool true)) = .literal (.bool true) ∧
         ([.ifStatement (.binaryExpression "==" (.identifier "x") (.literal (.int 10)))
             (.block [.breakStatement]) none] : List Ast).any isRaptorIfBreak = true)) :=
  ⟨by with_unfolding_all rfl,
   midtest_detector_characterisation.1 49 _ _ mInit (by with_unfolding_all rfl)⟩

/-! ## Claim C6

The walker's only failure on data-model ASTs is the break-outside-loop
error.  `walkerSpec` below characterises the fueled walker: with enough
fuel and a well-formed input, generation succeeds exactly when the
loop-exit stack is nonempty or no break is exposed outside a while, it
preserves the loop-exit stack, and in the failing case the error is
exactly the break message. -/

def breakMsg : String := "BREAK statement found outside of a loop."

theorem addNode_stack (l s : String) (st : MState) :
    (mermaidAddNode l s st).2.loop_exit_stack = st.loop_exit_stack := by
  with_unfolding_all rfl

theorem addEdge_stack (a b : String) (lab : Option String) (st : MState) :
    (mermaidAddEdge a b lab st).loop_exit_stack = st.loop_exit_stack := by
  unfold mermaidAddEdge
  split <;> rfl

theorem linkSeq_stack :
    ∀ (prs : List (Option String × Option String)) (st : MState),
      (linkSeq prs st).loop_exit_stack = st.loop_exit_stack := by
  intro prs
  induction prs with
  | nil => intro st; rfl
  | cons p rest ih =>
    intro st
    cases rest with
    | nil => rfl
    | cons q rest2 =>
      have h : linkSeq (p :: q :: rest2) st
          = linkSeq (q :: rest2)
              (match p.2, q.1 with
               | some a, some b => mermaidAddEdge a b none st
               | _, _ => st) := by
        with_unfolding_all rfl
      rw [h]
      rcases hp : p.2 with _ | a <;> rcases hq : q.1 with _ | b <;>
        simp [hp, hq, ih, addEdge_stack]

theorem astSize_pos (a : Ast) : 1 ≤ astSize a := by
  cases a
  case ifStatement t c alt => cases alt <;> simp only [astSize] <;> omega
  all_goals simp only [astSize] <;> omega

theorem listSize_take_le (n : Nat) (l : List Ast) :
    listSize (l.take n) ≤ listSize l := by
  induction l generalizing n with
  | nil => simp [List.take]
  | cons a r ih =>
    cases n with
    | zero => simp only [List.take, listSize]; omega
    | succ m =>
      have := ih m
      simp only [List.take, listSize]
      omega

theorem listSize_drop_le (n : Nat) (l : List Ast) :
    listSize (l.drop n) ≤ listSize l := by
  induction l generalizing n with
  | nil => simp [List.drop]
  | cons a r ih =>
    cases n with
    | zero => simp [List.drop]
    | succ m =>
      have h1 := ih m
      have h2 := astSize_pos a
      simp only [List.drop, listSize]
      omega

theorem wfList_take (n : Nat) (l : List Ast) (h : wfList l = true) :
    wfList (l.take n) = true := by
  induction l generalizing n with
  | nil => simp [List.take, wfList]
  | cons a r ih =>
    cases n with
    | zero => simp [List.take, wfList]
    | succ m =>
      simp only [wfList, Bool.and_eq_true] at h
      simp [List.take, wfList, h.1, ih m h.2]

theorem wfList_drop (n : Nat) (l : List Ast) (h : wfList l = true) :
    wfList (l.drop n) = true := by
  induction l generalizing n with
  | nil => simp [List.drop, wfList]
  | cons a r ih =>
    cases n with
    | zero => simpa [List.drop] using h
    | succ m =>
      simp only [wfList, Bool.and_eq_true] at h
      simpa [List.drop] using ih m h.2

/-! ## Claim C6

A characterisation of the shared base-generator walker: on a well-formed
statement (list), the walk succeeds preserving the loop-exit stack whenever
the stack is nonempty or no bare BREAK occurs outside a WHILE, and fails
with the BreakOutsideLoop error when the stack is empty and such a BREAK
exists. Proved by strong induction on fuel. -/

set_option maxHeartbeats 1000000

def NodeSpec (f : Nat) : Prop :=
  ∀ a st, 4 * astSize a + 8 ≤ f → wfStmt a = true →
    ((st.loop_exit_stack ≠ [] ∨ stmtBreakOk a = true) →
      ∃ en ex st2, genNode f a st = some (.ok (en, ex, st2)) ∧
        st2.loop_exit_stack = st.loop_exit_stack) ∧
    (st.loop_exit_stack = [] → stmtBreakOk a = false →
      genNode f a st = some (.error breakMsg))

def ListSpec (f : Nat) : Prop :=
  ∀ l st, 4 * listSize l + 8 ≤ f → wfList l = true →
    ((st.loop_exit_stack ≠ [] ∨ listBreakOk l = true) →
      ∃ prs st2, genList f l st = some (.ok (prs, st2)) ∧
        st2.loop_exit_stack = st.loop_exit_stack) ∧
    (st.loop_exit_stack = [] → listBreakOk l = false →
      genList f l st = some (.error breakMsg))

def StmtsSpec (f : Nat) : Prop :=
  ∀ l st, 4 * listSize l + 12 ≤ f → wfList l = true →
    ((st.loop_exit_stack ≠ [] ∨ listBreakOk l = true) →
      ∃ en ex st2, genStmts f l st = some (.ok (en, ex, st2)) ∧
        st2.loop_exit_stack = st.loop_exit_stack) ∧
    (st.loop_exit_stack = [] → listBreakOk l = false →
      genStmts f l st = some (.error breakMsg))

def VisSpec (f : Nat) : Prop :=
  ∀ test bl st, 4 * listSize bl + 16 ≤ f → wfList bl = true →
    ∃ r, tryVisualizeRaptorLoop f test bl st = some (.ok r) ∧
      (r = none ∨ ∃ en ex st2, r = some (en, ex, st2) ∧
        st2.loop_exit_stack = st.loop_exit_stack)


theorem tryVis_true_unfold (f : Nat) (bl : List Ast) (st : MState) :
    tryVisualizeRaptorLoop (f + 1) (.literal (.bool true)) bl st
      = (match findIfBreak 0 bl with
         | none => some (.ok none)
         | some (i, ifTest) =>
           let pr1 := mermaidAddNode (exprToStr ifTest) "diamond" st
           let pr2 := mermaidAddNode " " "point" pr1.2
           let st3 := pushExit pr2.1 pr2.2
           let st4 := mermaidAddEdge pr1.1 pr2.1 (some "True") st3
           match genStmts f (bl.take i) st4 with
           | none => none
           | some (.error e) => some (.error e)
           | some (.ok (entryBefore, exitBefore, st5)) =>
             match genStmts f (bl.drop (i + 1)) st5 with
             | none => none
             | some (.error e) => some (.error e)
             | some (.ok (entryAfter, exitAfter, st6)) =>
               let loopEntry := entryBefore.getD pr1.1
               let st7 :=
                 match exitBefore with
                 | some e2 => mermaidAddEdge e2 pr1.1 none st6
                 | none => st6
               let continuePath := entryAfter.getD loopEntry
               let st8 := mermaidAddEdge pr1.1 continuePath (some "False") st7
               let st9 :=
                 match exitAfter with
                 | some e2 => mermaidAddEdge e2 loopEntry none st8
                 | none => st8
               let st10 := popExit st9
               some (.ok (some (loopEntry, pr2.1, st10)))) := by
  with_unfolding_all rfl

theorem tryVis_not_true (f : Nat) (test : Ast) (bl : List Ast) (st : MState)
    (h : test ≠ .literal (.bool true)) :
    tryVisualizeRaptorLoop (f + 1) test bl st = some (.ok none) := by
  cases test with
  | literal v =>
    cases v with
    | bool b =>
      cases b with
      | true => exact absurd rfl h
      | false => with_unfolding_all rfl
    | int n => with_unfolding_all rfl
    | float s => with_unfolding_all rfl
    | str s => with_unfolding_all rfl
  | program b => with_unfolding_all rfl
  | block b => with_unfolding_all rfl
  | identifier n => with_unfolding_all rfl
  | binaryExpression op l r => with_unfolding_all rfl
  | unaryExpression op a => with_unfolding_all rfl
  | callExpression c args => with_unfolding_all rfl
  | assignmentStatement l r => with_unfolding_all rfl
  | expressionStatement e => with_unfolding_all rfl
  | ifStatement t c a => with_unfolding_all rfl
  | whileStatement t b => with_unfolding_all rfl
  | breakStatement => with_unfolding_all rfl
  | other ty => with_unfolding_all rfl

theorem pushExit_stack (x : String) (st : MState) :
    (pushExit x st).loop_exit_stack = st.loop_exit_stack ++ [x] := by
  with_unfolding_all rfl

theorem popExit_stack (st : MState) :
    (popExit st).loop_exit_stack = st.loop_exit_stack.dropLast := by
  with_unfolding_all rfl

theorem walkerSpec : ∀ f : Nat, NodeSpec f ∧ ListSpec f ∧ StmtsSpec f ∧ VisSpec f := by
  intro f
  induction f using Nat.strong_induction_on with
  | _ f IH =>
  refine ⟨?nodeSpec, ?listSpec, ?stmtsSpec, ?visSpec⟩
  case listSpec =>
    intro l st hb hwf
    match f, l with
    | 0, _ => omega
    | g + 1, [] =>
      constructor
      · intro _
        exact ⟨[], st, by with_unfolding_all rfl, rfl⟩
      · intro _ hbk
        simp [listBreakOk] at hbk
    | g + 1, a :: rest =>
      simp only [wfList, Bool.and_eq_true] at hwf
      have hba : 4 * astSize a + 8 ≤ g := by
        simp only [listSize] at hb; omega
      have hbr : 4 * listSize rest + 8 ≤ g := by
        have := astSize_pos a
        simp only [listSize] at hb; omega
      have hNode := (IH g (by omega)).1 a st hba hwf.1
      have hList := (IH g (by omega)).2.1 rest
      have hunf : genList (g + 1) (a :: rest) st
          = (match genNode g a st with
             | none => none
             | some (.error e) => some (.error e)
             | some (.ok (en, ex, st1)) =>
               match genList g rest st1 with
               | none => none
               | some (.error e) => some (.error e)
               | some (.ok (prs, st2)) => some (.ok ((en, ex) :: prs, st2))) := by
        with_unfolding_all rfl
      constructor
      · rintro hcond
        simp only [listBreakOk, Bool.and_eq_true] at hcond
        have hcondA : st.loop_exit_stack ≠ [] ∨ stmtBreakOk a = true := by
          tauto
        obtain ⟨en, ex, st1, hg1, hs1⟩ := hNode.1 hcondA
        have hcondR : st1.loop_exit_stack ≠ [] ∨ listBreakOk rest = true := by
          rw [hs1]; tauto
        obtain ⟨prs, st2, hg2, hs2⟩ := (hList st1 hbr hwf.2).1 hcondR
        refine ⟨(en, ex) :: prs, st2, ?_, ?_⟩
        · rw [hunf]
          simp only [hg1, hg2]
        · rw [hs2, hs1]
      · intro hemp hbk
        simp only [listBreakOk] at hbk
        by_cases hsa : stmtBreakOk a = true
        · have hcondA : st.loop_exit_stack ≠ [] ∨ stmtBreakOk a = true := Or.inr hsa
          obtain ⟨en, ex, st1, hg1, hs1⟩ := hNode.1 hcondA
          have hr : listBreakOk rest = false := by
            cases hx : listBreakOk rest
            · rfl
            · rw [hsa, hx] at hbk
              simp at hbk
          have h2 := (hList st1 hbr hwf.2).2 (by rw [hs1, hemp]) hr
          rw [hunf]
          simp only [hg1, h2]
        · have h1 := hNode.2 hemp (by simpa using hsa)
          rw [hunf]
          simp only [h1]
  case stmtsSpec =>
    intro l st hb hwf
    match f, l with
    | 0, _ => omega
    | g + 1, [] =>
      constructor
      · intro _
        exact ⟨none, none, st, by with_unfolding_all rfl, rfl⟩
      · intro _ hbk
        simp [listBreakOk] at hbk
    | g + 1, a :: rest =>
      have hbl : 4 * listSize (a :: rest) + 8 ≤ g := by omega
      have hList := (IH g (by omega)).2.1 (a :: rest) st hbl hwf
      have hunf : genStmts (g + 1) (a :: rest) st
          = (match genList g (a :: rest) st with
             | none => none
             | some (.error e) => some (.error e)
             | some (.ok (prs, st1)) =>
               some (.ok (pairsEntry prs, pairsExit prs, linkSeq prs st1))) := by
        with_unfolding_all rfl
      constructor
      · intro hcond
        obtain ⟨prs, st1, hg, hs⟩ := hList.1 hcond
        refine ⟨pairsEntry prs, pairsExit prs, linkSeq prs st1, ?_, ?_⟩
        · rw [hunf]
          simp only [hg]
        · rw [linkSeq_stack, hs]
      · intro hemp hbk
        have h2 := hList.2 hemp hbk
        rw [hunf]
        simp only [h2]
  case visSpec =>
    intro test bl st hb hwf
    match f with
    | 0 => omega
    | g + 1 =>
    by_cases ht : test = .literal (.bool true)
    · subst ht
      rcases hfind : findIfBreak 0 bl with _ | ⟨i, ifTest⟩
      · refine ⟨none, ?_, Or.inl rfl⟩
        rw [tryVis_true_unfold, hfind]
      · have hstk4 : (mermaidAddEdge
            (mermaidAddNode (exprToStr ifTest) "diamond" st).1
            (mermaidAddNode " " "point" (mermaidAddNode (exprToStr ifTest) "diamond" st).2).1
            (some "True")
            (pushExit
              (mermaidAddNode " " "point" (mermaidAddNode (exprToStr ifTest) "diamond" st).2).1
              (mermaidAddNode " " "point" (mermaidAddNode (exprToStr ifTest) "diamond" st).2).2)).loop_exit_stack
            = st.loop_exit_stack
              ++ [(mermaidAddNode " " "point" (mermaidAddNode (exprToStr ifTest) "diamond" st).2).1] := by
          rw [addEdge_stack, pushExit_stack, addNode_stack, addNode_stack]
        have hbt : 4 * listSize (bl.take i) + 12 ≤ g := by
          have := listSize_take_le i bl
          omega
        have hbd : 4 * listSize (bl.drop (i + 1)) + 12 ≤ g := by
          have := listSize_drop_le (i + 1) bl
          omega
        obtain ⟨eb, xb, st5, hg1, hs1⟩ :=
          ((IH g (by omega)).2.2.1 (bl.take i) _ hbt (wfList_take i bl hwf)).1
            (by rw [hstk4]; simp)
        obtain ⟨ea, xa, st6, hg2, hs2⟩ :=
          ((IH g (by omega)).2.2.1 (bl.drop (i + 1)) st5 hbd (wfList_drop (i + 1) bl hwf)).1
            (by rw [hs1, hstk4]; simp)
        rw [tryVis_true_unfold, hfind]
        simp only [hg1, hg2]
        refine ⟨_, rfl, Or.inr ⟨_, _, _, rfl, ?_⟩⟩
        rw [popExit_stack]
        have h9 : ∀ st8 : MState,
            (match xa with
             | some e2 => mermaidAddEdge e2
                 ((eb).getD (mermaidAddNode (exprToStr ifTest) "diamond" st).1) none st8
             | none => st8).loop_exit_stack = st8.loop_exit_stack := by
          intro st8
          cases xa <;> simp [addEdge_stack]
        rw [h9, addEdge_stack]
        have h7 : ∀ st6x : MState,
            (match xb with
             | some e2 => mermaidAddEdge e2
                 (mermaidAddNode (exprToStr ifTest) "diamond" st).1 none st6x
             | none => st6x).loop_exit_stack = st6x.loop_exit_stack := by
          intro st6x
          cases xb <;> simp [addEdge_stack]
        rw [h7, hs2, hs1, hstk4, List.dropLast_concat]
    · exact ⟨none, tryVis_not_true g test bl st ht, Or.inl rfl⟩
  case nodeSpec =>
    intro a st hb hwf
    match f with
    | 0 => exact absurd hb (by have := astSize_pos a; omega)
    | g + 1 =>
    cases a with
    | program b => simp [wfStmt] at hwf
    | block b => simp [wfStmt] at hwf
    | literal v => simp [wfStmt] at hwf
    | identifier n => simp [wfStmt] at hwf
    | binaryExpression op l r => simp [wfStmt] at hwf
    | unaryExpression op x => simp [wfStmt] at hwf
    | callExpression c args => simp [wfStmt] at hwf
    | other ty => simp [wfStmt] at hwf
    | assignmentStatement l r =>
      constructor
      · intro _
        exact ⟨_, _, _, by with_unfolding_all rfl, addNode_stack _ _ _⟩
      · intro _ hbk
        simp [stmtBreakOk] at hbk
    | expressionStatement e =>
      cases e with
      | callExpression c args =>
        cases args with
        | nil => simp [wfStmt] at hwf
        | cons arg rest =>
          have hc : c = "Output" := by
            simpa [wfStmt] using hwf
          subst hc
          constructor
          · intro _
            exact ⟨_, _, _, by with_unfolding_all rfl, addNode_stack _ _ _⟩
          · intro _ hbk
            simp [stmtBreakOk] at hbk
      | program b => simp [wfStmt] at hwf
      | block b => simp [wfStmt] at hwf
      | literal v => simp [wfStmt] at hwf
      | identifier n => simp [wfStmt] at hwf
      | binaryExpression op l r => simp [wfStmt] at hwf
      | unaryExpression op x => simp [wfStmt] at hwf
      | assignmentStatement l r => simp [wfStmt] at hwf
      | expressionStatement e2 => simp [wfStmt] at hwf
      | ifStatement t c2 a2 => simp [wfStmt] at hwf
      | whileStatement t b => simp [wfStmt] at hwf
      | breakStatement => simp [wfStmt] at hwf
      | other ty => simp [wfStmt] at hwf
    | breakStatement =>
      have hunf : genNode (g + 1) .breakStatement st
          = (match st.loop_exit_stack.getLast? with
             | none => some (.error "BREAK statement found outside of a loop.")
             | some top =>
               some (.ok (some (mermaidAddNode " " "point" st).1, none,
                 mermaidAddEdge (mermaidAddNode " " "point" st).1 top none
                   (mermaidAddNode " " "point" st).2))) := by
        with_unfolding_all rfl
      constructor
      · intro hcond
        have hne : st.loop_exit_stack ≠ [] := by
          rcases hcond with h | h
          · exact h
          · simp [stmtBreakOk] at h
        obtain ⟨top, htop⟩ : ∃ v, st.loop_exit_stack.getLast? = some v := by
          cases hx : st.loop_exit_stack.getLast? with
          | none => exact absurd (List.getLast?_eq_none.mp hx) hne
          | some v => exact ⟨v, rfl⟩
        rw [hunf]
        simp only [htop]
        exact ⟨_, _, _, rfl, by rw [addEdge_stack, addNode_stack]⟩
      · intro hemp _
        rw [hunf, hemp]
        with_unfolding_all rfl
    | whileStatement t body =>
      cases body with
      | block bl =>
        have hwfbl : wfList bl = true := by simpa [wfStmt] using hwf
        have hszw : astSize (.whileStatement t (.block bl))
            = astSize t + (listSize bl + 1) + 1 := by
          simp [astSize]
        have hat := astSize_pos t
        have hbv : 4 * listSize bl + 16 ≤ g := by omega
        obtain ⟨r, hvr, hrs⟩ := (IH g (by omega)).2.2.2 t bl st hbv hwfbl
        have hunf : genNode (g + 1) (.whileStatement t (.block bl)) st
            = (match tryVisualizeRaptorLoop g t bl st with
               | none => none
               | some (.error e) => some (.error e)
               | some (.ok (some r)) => some (.ok (some r.1, some r.2.1, r.2.2))
               | some (.ok none) =>
                 match genStmts g bl
                     (pushExit
                       (mermaidAddNode " " "point" (mermaidAddNode (exprToStr t) "diamond" st).2).1
                       (mermaidAddNode " " "point" (mermaidAddNode (exprToStr t) "diamond" st).2).2) with
                 | none => none
                 | some (.error e) => some (.error e)
                 | some (.ok (bEntry, bExit, st4)) =>
                   some (.ok (some (mermaidAddNode (exprToStr t) "diamond" st).1,
                     some (mermaidAddNode " " "point" (mermaidAddNode (exprToStr t) "diamond" st).2).1,
                     mermaidAddEdge (mermaidAddNode (exprToStr t) "diamond" st).1
                       (mermaidAddNode " " "point" (mermaidAddNode (exprToStr t) "diamond" st).2).1
                       (some "False")
                       (popExit
                         (match bExit with
                          | some e2 => mermaidAddEdge e2
                              (mermaidAddNode (exprToStr t) "diamond" st).1 none
                              (mermaidAddEdge (mermaidAddNode (exprToStr t) "diamond" st).1
                                (bEntry.getD (mermaidAddNode (exprToStr t) "diamond" st).1)
                                (some "True") st4)
                          | none => mermaidAddEdge (mermaidAddNode (exprToStr t) "diamond" st).1
                              (bEntry.getD (mermaidAddNode (exprToStr t) "diamond" st).1)
                              (some "True") st4))))) := by
          with_unfolding_all rfl
        constructor
        · intro _
          rcases hrs with hrn | ⟨en2, ex2, st2, hre, hst2⟩
          · subst hrn
            have hstk3 : (pushExit
                (mermaidAddNode " " "point" (mermaidAddNode (exprToStr t) "diamond" st).2).1
                (mermaidAddNode " " "point" (mermaidAddNode (exprToStr t) "diamond" st).2).2).loop_exit_stack
                = st.loop_exit_stack
                  ++ [(mermaidAddNode " " "point" (mermaidAddNode (exprToStr t) "diamond" st).2).1] := by
              rw [pushExit_stack, addNode_stack, addNode_stack]
            have hbs : 4 * listSize bl + 12 ≤ g := by omega
            obtain ⟨bE, bX, st4, hg1, hs1⟩ :=
              ((IH g (by omega)).2.2.1 bl _ hbs hwfbl).1 (by rw [hstk3]; simp)
            rw [hunf]
            simp only [hvr, hg1]
            refine ⟨_, _, _, rfl, ?_⟩
            rw [addEdge_stack, popExit_stack]
            have hmx : ∀ stm : MState,
                (match bX with
                 | some e2 => mermaidAddEdge e2
                     (mermaidAddNode (exprToStr t) "diamond" st).1 none stm
                 | none => stm).loop_exit_stack = stm.loop_exit_stack := by
              intro stm
              cases bX <;> simp [addEdge_stack]
            rw [hmx, addEdge_stack, hs1, hstk3, List.dropLast_concat]
          · subst hre
            rw [hunf]
            simp only [hvr]
            exact ⟨_, _, _, rfl, hst2⟩
        · intro _ hbk
          simp [stmtBreakOk] at hbk
      | program b => simp [wfStmt] at hwf
      | literal v => simp [wfStmt] at hwf
      | identifier n => simp [wfStmt] at hwf
      | binaryExpression op l r => simp [wfStmt] at hwf
      | unaryExpression op x => simp [wfStmt] at hwf
      | callExpression c args => simp [wfStmt] at hwf
      | assignmentStatement l r => simp [wfStmt] at hwf
      | expressionStatement e2 => simp [wfStmt] at hwf
      | ifStatement t2 c2 a2 => simp [wfStmt] at hwf
      | whileStatement t2 b2 => simp [wfStmt] at hwf
      | breakStatement => simp [wfStmt] at hwf
      | other ty => simp [wfStmt] at hwf
    | ifStatement t conseq alt =>
      cases conseq with
      | block cl =>
        have hat := astSize_pos t
        cases alt with
        | none =>
          have hwfcl : wfList cl = true := by simpa [wfStmt] using hwf
          have hszi : astSize (.ifStatement t (.block cl) none)
              = astSize t + (listSize cl + 1) + 0 + 1 := by
            simp [astSize]
          have hbc : 4 * listSize cl + 12 ≤ g := by omega
          obtain ⟨g2, rfl⟩ : ∃ g2, g = g2 + 1 := ⟨g - 1, by omega⟩
          have hempS : ∀ stx : MState,
              genStmts (g2 + 1) ([] : List Ast) stx = some (.ok (none, none, stx)) :=
            fun stx => by with_unfolding_all rfl
          have hunf : genNode (g2 + 1 + 1) (.ifStatement t (.block cl) none) st
              = (let pr1 := mermaidAddNode (exprToStr t) "diamond" st
                 let pr2 := mermaidAddNode " " "point" pr1.2
                 match genStmts (g2 + 1) cl pr2.2 with
                 | none => none
                 | some (.error e) => some (.error e)
                 | some (.ok (tEntry, tExit, st3)) =>
                   let st4 := mermaidAddEdge pr1.1 (tEntry.getD pr2.1) (some "True") st3
                   let st5 := match tExit with
                     | some e2 => mermaidAddEdge e2 pr2.1 none st4
                     | none => st4
                   match genStmts (g2 + 1) ([] : List Ast) st5 with
                   | none => none
                   | some (.error e) => some (.error e)
                   | some (.ok (fEntry, fExit, st6)) =>
                     let st7 := mermaidAddEdge pr1.1 (fEntry.getD pr2.1) (some "False") st6
                     let st8 := match fExit with
                       | some e2 => mermaidAddEdge e2 pr2.1 none st7
                       | none => st7
                     some (.ok (some pr1.1, some pr2.1, st8))) := by
            with_unfolding_all rfl
          have hstk0 : (mermaidAddNode " " "point"
              (mermaidAddNode (exprToStr t) "diamond" st).2).2.loop_exit_stack
              = st.loop_exit_stack := by
            rw [addNode_stack, addNode_stack]
          constructor
          · intro hcond
            have hcond1 : (mermaidAddNode " " "point"
                (mermaidAddNode (exprToStr t) "diamond" st).2).2.loop_exit_stack ≠ []
                ∨ listBreakOk cl = true := by
              rw [hstk0]
              rcases hcond with h | h
              · exact Or.inl h
              · exact Or.inr (by simpa [stmtBreakOk] using h)
            obtain ⟨tE, tX, st3, hg1, hs1⟩ :=
              ((IH (g2 + 1) (by omega)).2.2.1 cl _ hbc hwfcl).1 hcond1
            rw [hunf]
            simp only [hg1, hempS]
            refine ⟨_, _, _, rfl, ?_⟩
            cases tX with
            | none =>
              simp only
              rw [addEdge_stack, addEdge_stack, hs1, hstk0]
            | some e2 =>
              simp only
              rw [addEdge_stack, addEdge_stack, addEdge_stack, hs1, hstk0]
          · intro hemp hbk
            have hbkcl : listBreakOk cl = false := by
              simpa [stmtBreakOk] using hbk
            have hg1 := ((IH (g2 + 1) (by omega)).2.2.1 cl _ hbc hwfcl).2
              (by rw [hstk0, hemp]) hbkcl
            rw [hunf]
            simp only [hg1]
        | some altA =>
          cases altA with
          | block al =>
            have hwfs : wfList cl = true ∧ wfList al = true := by
              have := hwf
              simp only [wfStmt, Bool.and_eq_true] at this
              exact this
            have hszi : astSize (.ifStatement t (.block cl) (some (.block al)))
                = astSize t + (listSize cl + 1) + (listSize al + 1) + 1 := by
              simp [astSize]
            have hbc : 4 * listSize cl + 12 ≤ g := by omega
            have hba : 4 * listSize al + 12 ≤ g := by omega
            have hunf : genNode (g + 1) (.ifStatement t (.block cl) (some (.block al))) st
                = (let pr1 := mermaidAddNode (exprToStr t) "diamond" st
                   let pr2 := mermaidAddNode " " "point" pr1.2
                   match genStmts g cl pr2.2 with
                   | none => none
                   | some (.error e) => some (.error e)
                   | some (.ok (tEntry, tExit, st3)) =>
                     let st4 := mermaidAddEdge pr1.1 (tEntry.getD pr2.1) (some "True") st3
                     let st5 := match tExit with
                       | some e2 => mermaidAddEdge e2 pr2.1 none st4
                       | none => st4
                     match genStmts g al st5 with
                     | none => none
                     | some (.error e) => some (.error e)
                     | some (.ok (fEntry, fExit, st6)) =>
                       let st7 := mermaidAddEdge pr1.1 (fEntry.getD pr2.1) (some "False") st6
                       let st8 := match fExit with
                         | some e2 => mermaidAddEdge e2 pr2.1 none st7
                         | none => st7
                       some (.ok (some pr1.1, some pr2.1, st8))) := by
              with_unfolding_all rfl
            have hstk0 : (mermaidAddNode " " "point"
                (mermaidAddNode (exprToStr t) "diamond" st).2).2.loop_exit_stack
                = st.loop_exit_stack := by
              rw [addNode_stack, addNode_stack]
            have hbrk : stmtBreakOk (.ifStatement t (.block cl) (some (.block al)))
                = (listBreakOk cl && listBreakOk al) := by
              simp [stmtBreakOk]
            constructor
            · intro hcond
              have hcond1 : (mermaidAddNode " " "point"
                  (mermaidAddNode (exprToStr t) "diamond" st).2).2.loop_exit_stack ≠ []
                  ∨ listBreakOk cl = true := by
                rw [hstk0]
                rcases hcond with h | h
                · exact Or.inl h
                · rw [hbrk] at h
                  simp only [Bool.and_eq_true] at h
                  exact Or.inr h.1
              obtain ⟨tE, tX, st3, hg1, hs1⟩ :=
                ((IH g (by omega)).2.2.1 cl _ hbc hwfs.1).1 hcond1
              rw [hunf]
              simp only [hg1]
              cases tX with
              | none =>
                have hcond2 : (mermaidAddEdge
                    (mermaidAddNode (exprToStr t) "diamond" st).1
                    (tE.getD (mermaidAddNode " " "point"
                      (mermaidAddNode (exprToStr t) "diamond" st).2).1)
                    (some "True") st3).loop_exit_stack ≠ []
                    ∨ listBreakOk al = true := by
                  rw [addEdge_stack, hs1, hstk0]
                  rcases hcond with h | h
                  · exact Or.inl h
                  · rw [hbrk] at h
                    simp only [Bool.and_eq_true] at h
                    exact Or.inr h.2
                obtain ⟨fE, fX, st6, hg2, hs2⟩ :=
                  ((IH g (by omega)).2.2.1 al _ hba hwfs.2).1 hcond2
                simp only [hg2]
                refine ⟨_, _, _, rfl, ?_⟩
                cases fX with
                | none =>
                  simp only
                  rw [addEdge_stack, hs2, addEdge_stack, hs1, hstk0]
                | some e3 =>
                  simp only
                  rw [addEdge_stack, addEdge_stack, hs2, addEdge_stack, hs1, hstk0]
              | some e2 =>
                have hcond2 : (mermaidAddEdge e2
                    (mermaidAddNode " " "point"
                      (mermaidAddNode (exprToStr t) "diamond" st).2).1 none
                    (mermaidAddEdge
                      (mermaidAddNode (exprToStr t) "diamond" st).1
                      (tE.getD (mermaidAddNode " " "point"
                        (mermaidAddNode (exprToStr t) "diamond" st).2).1)
                      (some "True") st3)).loop_exit_stack ≠ []
                    ∨ listBreakOk al = true := by
                  rw [addEdge_stack, addEdge_stack, hs1, hstk0]
                  rcases hcond with h | h
                  · exact Or.inl h
                  · rw [hbrk] at h
                    simp only [Bool.and_eq_true] at h
                    exact Or.inr h.2
                obtain ⟨fE, fX, st6, hg2, hs2⟩ :=
                  ((IH g (by omega)).2.2.1 al _ hba hwfs.2).1 hcond2
                simp only [hg2]
                refine ⟨_, _, _, rfl, ?_⟩
                cases fX with
                | none =>
                  simp only
                  rw [addEdge_stack, hs2, addEdge_stack, addEdge_stack, hs1, hstk0]
                | some e3 =>
                  simp only
                  rw [addEdge_stack, addEdge_stack, hs2, addEdge_stack, addEdge_stack,
                    hs1, hstk0]
            · intro hemp hbk
              rw [hbrk] at hbk
              by_cases hclq : listBreakOk cl = true
              · have hal : listBreakOk al = false := by
                  cases hx : listBreakOk al
                  · rfl
                  · rw [hclq, hx] at hbk
                    simp at hbk
                obtain ⟨tE, tX, st3, hg1, hs1⟩ :=
                  ((IH g (by omega)).2.2.1 cl _ hbc hwfs.1).1 (by rw [hstk0]; exact Or.inr hclq)
                rw [hunf]
                simp only [hg1]
                cases tX with
                | none =>
                  have hg2 := ((IH g (by omega)).2.2.1 al
                      (mermaidAddEdge
                        (mermaidAddNode (exprToStr t) "diamond" st).1
                        (tE.getD (mermaidAddNode " " "point"
                          (mermaidAddNode (exprToStr t) "diamond" st).2).1)
                        (some "True") st3) hba hwfs.2).2
                    (by rw [addEdge_stack, hs1, hstk0, hemp]) hal
                  simp only [hg2]
                | some e2 =>
                  have hg2 := ((IH g (by omega)).2.2.1 al
                      (mermaidAddEdge e2
                        (mermaidAddNode " " "point"
                          (mermaidAddNode (exprToStr t) "diamond" st).2).1 none
                        (mermaidAddEdge
                          (mermaidAddNode (exprToStr t) "diamond" st).1
                          (tE.getD (mermaidAddNode " " "point"
                            (mermaidAddNode (exprToStr t) "diamond" st).2).1)
                          (some "True") st3)) hba hwfs.2).2
                    (by rw [addEdge_stack, addEdge_stack, hs1, hstk0, hemp]) hal
                  simp only [hg2]
              · have hcl : listBreakOk cl = false := by
                  cases hx : listBreakOk cl
                  · rfl
                  · exact absurd hx hclq
                have hg1 := ((IH g (by omega)).2.2.1 cl _ hbc hwfs.1).2
                  (by rw [hstk0, hemp]) hcl
                rw [hunf]
                simp only [hg1]
          | program b => simp [wfStmt] at hwf
          | literal v => simp [wfStmt] at hwf
          | identifier n => simp [wfStmt] at hwf
          | binaryExpression op l r => simp [wfStmt] at hwf
          | unaryExpression op x => simp [wfStmt] at hwf
          | callExpression c args => simp [wfStmt] at hwf
          | assignmentStatement l r => simp [wfStmt] at hwf
          | expressionStatement e2 => simp [wfStmt] at hwf
          | ifStatement t2 c2 a2 => simp [wfStmt] at hwf
          | whileStatement t2 b2 => simp [wfStmt] at hwf
          | breakStatement => simp [wfStmt] at hwf
          | other ty => simp [wfStmt] at hwf
      | program b => simp [wfStmt] at hwf
      | literal v => simp [wfStmt] at hwf
      | identifier n => simp [wfStmt] at hwf
      | binaryExpression op l r => simp [wfStmt] at hwf
      | unaryExpression op x => simp [wfStmt] at hwf
      | callExpression c args => simp [wfStmt] at hwf
      | assignmentStatement l r => simp [wfStmt] at hwf
      | expressionStatement e2 => simp [wfStmt] at hwf
      | ifStatement t2 c2 a2 => simp [wfStmt] at hwf
      | whileStatement t2 b2 => simp [wfStmt] at hwf
      | breakStatement => simp [wfStmt] at hwf
      | other ty => simp [wfStmt] at hwf

/-- C6: for every well-formed program AST, Mermaid diagram generation from a
fresh instance succeeds if and only if every BreakStatement in the AST is
nested inside at least one enclosing WhileStatement; when some BreakStatement
has no enclosing WhileStatement, generation fails with the BreakOutsideLoop
error "BREAK statement found outside of a loop.". -/
theorem diagram_break_wellformedness :
    ∀ ast : Ast, wfProgram ast = true →
      ((∃ out, mermaidGenerate mInit ast = .ok out) ↔ programBreakOk ast = true) ∧
      (programBreakOk ast = false →
        mermaidGenerate mInit ast = .error breakMsg) := by
  intro ast hwf
  cases ast with
  | program l =>
    have hwl : wfList l = true := by simpa [wfProgram] using hwf
    have hunf : mermaidGenerate mInit (.program l)
        = (let pr0 := mermaidAddNode "Start" "start" mInit
           match genStmts (mermaidFuel l) l pr0.2 with
           | none => .error walkFuelMsg
           | some (.error e) => .error e
           | some (.ok (entry, exitN, st1)) =>
             let st2 :=
               match entry with
               | some e2 => mermaidAddEdge pr0.1 e2 none st1
               | none => st1
             let lastNode := exitN.getD pr0.1
             let pr3 := mermaidAddNode "End" "start" st2
             let st4 := mermaidAddEdge lastNode pr3.1 none pr3.2
             .ok ("graph TD;\n" ++ joinSep "\n" st4.node_defs ++ "\n\n"
               ++ joinSep "\n" st4.edge_defs, st4)) := by
      with_unfolding_all rfl
    have hstk0 : (mermaidAddNode "Start" "start" mInit).2.loop_exit_stack = [] := by
      rw [addNode_stack]
      rfl
    have hbnd : 4 * listSize l + 12 ≤ mermaidFuel l := by
      simp only [mermaidFuel]
      omega
    have hpb : programBreakOk (.program l) = listBreakOk l := by
      simp [programBreakOk]
    have hspec := (walkerSpec (mermaidFuel l)).2.2.1 l
      (mermaidAddNode "Start" "start" mInit).2 hbnd hwl
    cases hbk : listBreakOk l with
    | true =>
      obtain ⟨en, ex, st2, hg, _⟩ := hspec.1 (Or.inr hbk)
      constructor
      · constructor
        · intro _
          rw [hpb, hbk]
        · intro _
          simp only [hunf, hg]
          exact ⟨_, rfl⟩
      · intro hcontra
        rw [hpb, hbk] at hcontra
        exact absurd hcontra (by simp)
    | false =>
      have hg := hspec.2 hstk0 hbk
      have herr : mermaidGenerate mInit (.program l) = .error breakMsg := by
        rw [hunf]
        simp only [hg]
      constructor
      · constructor
        · intro ⟨out, hout⟩
          rw [herr] at hout
          exact absurd hout (by simp)
        · intro hcontra
          rw [hpb, hbk] at hcontra
          exact absurd hcontra (by simp)
      · intro _
        exact herr
  | block l => simp [wfProgram] at hwf
  | literal v => simp [wfProgram] at hwf
  | identifier n => simp [wfProgram] at hwf
  | binaryExpression op a b => simp [wfProgram] at hwf
  | unaryExpression op a => simp [wfProgram] at hwf
  | callExpression c args => simp [wfProgram] at hwf
  | assignmentStatement a b => simp [wfProgram] at hwf
  | expressionStatement e => simp [wfProgram] at hwf
  | ifStatement t c a => simp [wfProgram] at hwf
  | whileStatement t b => simp [wfProgram] at hwf
  | breakStatement => simp [wfProgram] at hwf
  | other ty => simp [wfProgram] at hwf

/-- C6 witness: the one-statement program consisting of a bare BREAK is
well-formed, its generation fails with the BreakOutsideLoop error, and the
success-iff-break-ok equivalence holds on it. -/
theorem diagram_break_wellformedness_witness :
    wfProgram (.program [.breakStatement]) = true ∧
    (((∃ out, mermaidGenerate mInit (.program [.breakStatement]) = .ok out) ↔
        programBreakOk (.program [.breakStatement]) = true) ∧
      (programBreakOk (.program [.breakStatement]) = false →
        mermaidGenerate mInit (.program [.breakStatement]) = .error breakMsg)) :=
  ⟨by with_unfolding_all rfl,
   diagram_break_wellformedness (.program [.breakStatement])
     (by with_unfolding_all rfl)⟩

end Comet
